import Mathlib

/-!
Verification of the NvBot momentum-signal pipeline.

Shallow embedding of the scoring and signal-generation code:
* `src/config/parameters.py` — score bands and quotas,
* `src/core/signal_unifier.py` — `SignalUnifier`,
* `src/core/historical_analyzer.py` — `HistoricalAnalyzer` scoring,
* `src/core/technical_analyzer.py` — `TechnicalAnalyzer`,
* `src/indicators/confluence_validator.py` — `ConfluenceValidator` scoring,
* `src/signals/signal_generator.py` — `SignalGenerator`,
* `src/data/data_fetcher.py` — rolling candle buffer,
* `src/utils/signal_averaging.py` — `SignalAveraging` trend window.

Python integers are modelled as `ℤ` (or `ℕ` where the source value is a
count that is non-negative by construction), Python floats as `ℚ` wherever
the arithmetic is exact rational arithmetic, and as `ℝ` for the one place
the source takes a square root (`variance ** 0.5` in the priority score).
Timestamps are minutes since an epoch (`ℕ`); `datetime.date()` becomes
division by 1440.
-/

namespace NvBot

/-! ## Configuration constants (src/config/parameters.py) -/

def RSI_OVERSOLD : ℚ := 25
def RSI_OVERBOUGHT : ℚ := 75
def VOLUME_SPIKE_THRESHOLD : ℚ := 3
def HISTORICAL_MAX_SCORE : ℕ := 25
def TECHNICAL_MAX_SCORE : ℕ := 50
def CONFLUENCE_MAX_SCORE : ℤ := 25
def TARGET_DAILY_SIGNALS : ℕ := 3

/-- Confidence tiers (keys of `CONFIDENCE_LEVELS` in parameters.py). -/
inductive ConfidenceLevel
  | FUERTE
  | ALTO
  | MEDIO
  | DEBIL
deriving DecidableEq, Repr

/-- `CONFIDENCE_LEVELS`: tier → (min_score, max_score), in the dict's
insertion order, which is the iteration order used by
`SignalUnifier._classify_confidence_level`. -/
def CONFIDENCE_LEVELS : List (ConfidenceLevel × ℤ × ℤ) :=
  [(ConfidenceLevel.FUERTE, 85, 100),
   (ConfidenceLevel.ALTO, 70, 84),
   (ConfidenceLevel.MEDIO, 50, 69),
   (ConfidenceLevel.DEBIL, 30, 49)]

/-! ## Signal Unifier (src/core/signal_unifier.py) -/

/-- `SignalUnifier._calculate_total_score`: sum of the three sub-scores,
clamped into 0..100 by `min(max(total, 0), 100)`. -/
def calculate_total_score (historical_score technical_score confluence_score : ℤ) : ℤ :=
  min (max (historical_score + technical_score + confluence_score) 0) 100

/-- Helper for `_classify_confidence_level`: first band of
`CONFIDENCE_LEVELS` containing the score; `'DÉBIL'` when none does. -/
def classify_level_aux : List (ConfidenceLevel × ℤ × ℤ) → ℤ → ConfidenceLevel
  | [], _ => ConfidenceLevel.DEBIL
  | (level, lo, hi) :: rest, s =>
    if lo ≤ s ∧ s ≤ hi then level else classify_level_aux rest s

/-- `SignalUnifier._classify_confidence_level`. -/
def classify_confidence_level (total_score : ℤ) : ConfidenceLevel :=
  classify_level_aux CONFIDENCE_LEVELS total_score

/-- Modelled from the spec: the spec's tier assignment
("confidenceTier from fixed non-overlapping score bands (e.g., 85–100
STRONG, 70–84 HIGH, 50–69 MEDIUM, 30–49 WEAK, else DISCARDED)"), where a
score in no band is discarded, i.e. receives no tier. Used only to compare
the spec's words with `classify_confidence_level`. -/
def classify_confidence_spec : ℤ → Option ConfidenceLevel
  | s =>
    if 85 ≤ s ∧ s ≤ 100 then some ConfidenceLevel.FUERTE
    else if 70 ≤ s ∧ s ≤ 84 then some ConfidenceLevel.ALTO
    else if 50 ≤ s ∧ s ≤ 69 then some ConfidenceLevel.MEDIO
    else if 30 ≤ s ∧ s ≤ 49 then some ConfidenceLevel.DEBIL
    else none

/-- Signal strengths produced by `_determine_signal_strength`. -/
inductive SignalStrength
  | VERY_STRONG
  | STRONG
  | MODERATE
  | WEAK
  | VERY_WEAK
deriving DecidableEq, Repr

/-- `SignalUnifier._determine_signal_strength`. -/
def determine_signal_strength (total_score hist_score tech_score conf_score : ℤ) :
    SignalStrength :=
  if 85 ≤ total_score then
    if 15 ≤ hist_score ∧ 35 ≤ tech_score ∧ 18 ≤ conf_score then SignalStrength.VERY_STRONG
    else SignalStrength.STRONG
  else if 70 ≤ total_score then
    if 25 ≤ tech_score ∧ 15 ≤ conf_score then SignalStrength.STRONG
    else SignalStrength.MODERATE
  else if 50 ≤ total_score then SignalStrength.MODERATE
  else if 30 ≤ total_score then SignalStrength.WEAK
  else SignalStrength.VERY_WEAK

/-- Recommendations produced by `_generate_recommendation`. -/
inductive Recommendation
  | STRONG_BUY
  | BUY
  | WEAK_BUY
  | WATCH
  | HOLD
deriving DecidableEq, Repr

/-- `SignalUnifier._generate_recommendation`. -/
def generate_recommendation (level : ConfidenceLevel) (strength : SignalStrength)
    (total_score : ℤ) : Recommendation :=
  if level = ConfidenceLevel.FUERTE ∧
      (strength = SignalStrength.VERY_STRONG ∨ strength = SignalStrength.STRONG) then
    Recommendation.STRONG_BUY
  else if (level = ConfidenceLevel.FUERTE ∨ level = ConfidenceLevel.ALTO) ∧
      (strength = SignalStrength.STRONG ∨ strength = SignalStrength.MODERATE) then
    Recommendation.BUY
  else if (level = ConfidenceLevel.ALTO ∨ level = ConfidenceLevel.MEDIO) ∧
      60 ≤ total_score then
    Recommendation.WEAK_BUY
  else if level = ConfidenceLevel.MEDIO ∧ 50 ≤ total_score then
    Recommendation.WATCH
  else
    Recommendation.HOLD

/-- Python `round` to the nearest integer, ties to even (banker's
rounding), on an exact rational value. -/
def round_half_even (x : ℚ) : ℤ :=
  let f := Int.floor x
  let r := x - f
  if r < 1 / 2 then f
  else if 1 / 2 < r then f + 1
  else if f % 2 = 0 then f else f + 1

/-- Python `round(x, d)` on an exact rational value. -/
def python_round (d : ℕ) (x : ℚ) : ℚ :=
  (round_half_even (x * 10 ^ d) : ℚ) / 10 ^ d

/-- `SignalUnifier._calculate_target_probability`: base probability from
the total score, bonuses for strong components, penalty for imbalance,
clamped into `[0, 0.95]` and rounded to 3 decimals. -/
def calculate_target_probability (total_score hist_score tech_score conf_score : ℤ) : ℚ :=
  let base_probability : ℚ := min ((total_score : ℚ) / 100) (95 / 100)
  let adj1 : ℚ := if 20 ≤ conf_score then 1 / 10 else if 15 ≤ conf_score then 1 / 20 else 0
  let adj2 : ℚ := if 40 ≤ tech_score then 2 / 25 else if 30 ≤ tech_score then 1 / 25 else 0
  let adj3 : ℚ := if 20 ≤ hist_score then 1 / 20 else 0
  let max_component : ℚ :=
    max ((hist_score : ℚ) / 25) (max ((tech_score : ℚ) / 50) ((conf_score : ℚ) / 25))
  let min_component : ℚ :=
    min ((hist_score : ℚ) / 25) (min ((tech_score : ℚ) / 50) ((conf_score : ℚ) / 25))
  let adj4 : ℚ := if 1 / 2 < max_component - min_component then -(1 / 10) else 0
  python_round 3 (max 0 (min (base_probability + adj1 + adj2 + adj3 + adj4) (95 / 100)))

/-- The unified signal, as consumed by the Signal Generator: the fields of
the dict built by `SignalUnifier.unify_signals` that later stages read.
`symbol` is an `Option` because the generator's `_is_duplicate_signal`
distinguishes a present symbol from a missing/falsy one. The three
component scores stand for
`components.{historical,technical,confluence}.*_score`. -/
structure UnifiedSignal where
  symbol : Option String
  timestamp : ℕ
  total_score : ℤ
  confidence_level : ConfidenceLevel
  signal_strength : SignalStrength
  recommendation : Recommendation
  target_probability : ℚ
  historical_score : ℤ
  technical_score : ℤ
  confluence_score : ℤ
deriving DecidableEq, Repr

/-- `SignalUnifier.unify_signals`, restricted to the scored fields (the
informational `analysis_summary` / `risk_factors` / `confirmation_signals`
string lists are not modelled; no later numeric decision reads them). -/
def unify_signals (symbol : String) (now : ℕ)
    (historical_score technical_score confluence_score : ℤ) : UnifiedSignal :=
  let total := calculate_total_score historical_score technical_score confluence_score
  let level := classify_confidence_level total
  let strength :=
    determine_signal_strength total historical_score technical_score confluence_score
  { symbol := some symbol
    timestamp := now
    total_score := total
    confidence_level := level
    signal_strength := strength
    recommendation := generate_recommendation level strength total
    target_probability :=
      calculate_target_probability total historical_score technical_score confluence_score
    historical_score := historical_score
    technical_score := technical_score
    confluence_score := confluence_score }

/-! ## Historical Analyzer (src/core/historical_analyzer.py)

The scoring stage `_calculate_historical_score` and its three helpers are
embedded over the intermediate values the source computes from candle
data: the per-period `current_vs_average` percentages, the per-period peak
statistics, and the per-period pattern counts. The counts are `ℕ` because
the source produces them by counting. -/

/-- One entry of the `peaks` dict fed to `_score_peaks_analysis`:
`recent_peaks` (a count) and `avg_peak_height` (a percentage). The unused
`peak_count` field is read but not scored by the source. -/
structure PeakData where
  peak_count : ℕ
  recent_peaks : ℕ
  avg_peak_height : ℚ
deriving DecidableEq, Repr

/-- Pattern kinds produced by `_identify_momentum_patterns`. -/
inductive PatternType
  | sustained_rise
  | volume_breakout
  | oversold_reversal
deriving DecidableEq, Repr

/-- One entry of the `patterns` list: a pattern kind and its count. -/
structure PatternData where
  ptype : PatternType
  count : ℕ
deriving DecidableEq, Repr

/-- `HistoricalAnalyzer._score_price_averages`: +3/+2/+1 per period whose
current price is >5% / >2% / >0% above that period's rolling average. -/
def score_price_averages (current_vs_average : List ℚ) : ℕ :=
  (current_vs_average.map fun change_pct =>
    if 5 < change_pct then 3 else if 2 < change_pct then 2
    else if 0 < change_pct then 1 else 0).sum

/-- `HistoricalAnalyzer._score_peaks_analysis`: per period,
`min(recent_peaks * 2, 4)` plus +3/+2/+1 for average peak height
>10% / >5% / >2%. -/
def score_peaks_analysis (peaks : List PeakData) : ℕ :=
  (peaks.map fun p =>
    min (p.recent_peaks * 2) 4 +
      (if 10 < p.avg_peak_height then 3 else if 5 < p.avg_peak_height then 2
       else if 2 < p.avg_peak_height then 1 else 0)).sum

/-- `HistoricalAnalyzer._score_momentum_patterns`: per pattern,
`min(count, 3)` for sustained rises, `min(count * 2, 4)` for volume
breakouts, `min(count, 2)` for oversold reversals. -/
def score_momentum_patterns (patterns : List PatternData) : ℕ :=
  (patterns.map fun p =>
    match p.ptype with
    | PatternType.sustained_rise => min p.count 3
    | PatternType.volume_breakout => min (p.count * 2) 4
    | PatternType.oversold_reversal => min p.count 2).sum

/-- `HistoricalAnalyzer._calculate_historical_score`: the three partial
scores capped at 8, 10 and 7 respectively, their sum capped at
`HISTORICAL_MAX_SCORE = 25`. -/
def calculate_historical_score (averages : List ℚ) (peaks : List PeakData)
    (patterns : List PatternData) : ℕ :=
  min (min (score_price_averages averages) 8 + min (score_peaks_analysis peaks) 10 +
    min (score_momentum_patterns patterns) 7) HISTORICAL_MAX_SCORE

/-! ## Technical Analyzer (src/core/technical_analyzer.py) -/

/-- Trend labels reported by the RSI / MACD indicator helpers (the source
compares them against the string `'bullish'`). -/
inductive Trend3
  | bullish
  | bearish
  | neutral
deriving DecidableEq, Repr

/-- Volume trend labels (the source compares against `'increasing'`). -/
inductive VolTrend
  | increasing
  | decreasing
  | neutral
deriving DecidableEq, Repr

/-- Signal tags appended by `_analyze_rsi_momentum`. -/
inductive RsiTag
  | oversold_recovery
  | bullish_zone
  | strong_momentum
  | bullish_trend
deriving DecidableEq, Repr

/-- Signal tags appended by `_analyze_macd_momentum`. -/
inductive MacdTag
  | macd_above_signal
  | histogram_positive
  | bullish_crossover
  | macd_positive
  | bullish_momentum
deriving DecidableEq, Repr

/-- Signal tags appended by `_analyze_volume_momentum`. Every tag's source
string contains the substring `'volume'`, which
`_identify_confluence_factors` tests with `'volume' in sig`. -/
inductive VolTag
  | explosive_volume
  | high_volume_spike
  | moderate_volume_spike
  | increased_volume
  | volume_trend_up
deriving DecidableEq, Repr

/-- Result of one indicator sub-analysis: its capped score and tags. -/
structure IndicatorResult (τ : Type) where
  score : ℕ
  signals : List τ
deriving DecidableEq, Repr

/-- `TechnicalAnalyzer._analyze_rsi_momentum`: zone score
(recovery 8 / bullish zone 12 / overbought momentum 6) plus a +3 bonus for
a bullish RSI trend, capped at 15. -/
def analyze_rsi_momentum (current_rsi : ℚ) (trend : Trend3) : IndicatorResult RsiTag :=
  let zone : ℕ × List RsiTag :=
    if RSI_OVERSOLD < current_rsi ∧ current_rsi < 50 then (8, [RsiTag.oversold_recovery])
    else if 50 ≤ current_rsi ∧ current_rsi < RSI_OVERBOUGHT then (12, [RsiTag.bullish_zone])
    else if RSI_OVERBOUGHT ≤ current_rsi then (6, [RsiTag.strong_momentum])
    else (0, [])
  let bonus : ℕ × List RsiTag :=
    if trend = Trend3.bullish then (3, [RsiTag.bullish_trend]) else (0, [])
  { score := min (zone.1 + bonus.1) 15, signals := zone.2 ++ bonus.2 }

/-- `TechnicalAnalyzer._analyze_macd_momentum`: +8 for MACD above signal
(+4 more when the histogram is positive), +8 for a recent bullish
crossover, +3 for a positive MACD line, +5 for a bullish trend, capped at
20. -/
def analyze_macd_momentum (macd_line signal_line histogram : ℚ)
    (recent_bullish_crossover : Bool) (trend : Trend3) : IndicatorResult MacdTag :=
  let above : ℕ × List MacdTag :=
    if signal_line < macd_line then
      if 0 < histogram then (12, [MacdTag.macd_above_signal, MacdTag.histogram_positive])
      else (8, [MacdTag.macd_above_signal])
    else (0, [])
  let cross : ℕ × List MacdTag :=
    if recent_bullish_crossover then (8, [MacdTag.bullish_crossover]) else (0, [])
  let positive : ℕ × List MacdTag :=
    if 0 < macd_line then (3, [MacdTag.macd_positive]) else (0, [])
  let momentum : ℕ × List MacdTag :=
    if trend = Trend3.bullish then (5, [MacdTag.bullish_momentum]) else (0, [])
  { score := min (above.1 + cross.1 + positive.1 + momentum.1) 20
    signals := above.2 ++ cross.2 ++ positive.2 ++ momentum.2 }

/-- `TechnicalAnalyzer._analyze_volume_momentum`: the current/average
volume ratio (`0` when the average is not positive) is scored by tier
(≥5× → 15, ≥3× → 12, ≥2× → 8, ≥1.5× → 4), with a +3 bonus for an
increasing volume trend, capped at 15. -/
def analyze_volume_momentum (current_volume average_volume : ℚ) (trend : VolTrend) :
    IndicatorResult VolTag :=
  let vr : ℚ := if 0 < average_volume then current_volume / average_volume else 0
  let tier : ℕ × List VolTag :=
    if 5 ≤ vr then (15, [VolTag.explosive_volume])
    else if VOLUME_SPIKE_THRESHOLD ≤ vr then (12, [VolTag.high_volume_spike])
    else if 2 ≤ vr then (8, [VolTag.moderate_volume_spike])
    else if 3 / 2 ≤ vr then (4, [VolTag.increased_volume])
    else (0, [])
  let bonus : ℕ × List VolTag :=
    if trend = VolTrend.increasing then (3, [VolTag.volume_trend_up]) else (0, [])
  { score := min (tier.1 + bonus.1) 15, signals := tier.2 ++ bonus.2 }

/-- Confluence factors of `_identify_confluence_factors`. -/
inductive TechFactor
  | rsi_macd_bullish
  | volume_momentum_confluence
  | triple_bullish_confluence
  | momentum_breakout
deriving DecidableEq, Repr

/-- `TechnicalAnalyzer._identify_confluence_factors`. The source's
`any('volume' in sig for sig in volume_signals)` holds exactly when the
volume signal list is non-empty, since every volume tag contains
`'volume'`. -/
def identify_confluence_factors (rsi_result : IndicatorResult RsiTag)
    (macd_result : IndicatorResult MacdTag) (volume_result : IndicatorResult VolTag) :
    List TechFactor :=
  (if rsi_result.signals.contains RsiTag.bullish_zone ∧
      macd_result.signals.contains MacdTag.macd_above_signal then
    [TechFactor.rsi_macd_bullish] else []) ++
  (if ¬volume_result.signals.isEmpty ∧
      (macd_result.signals.contains MacdTag.bullish_crossover ∨
        rsi_result.signals.contains RsiTag.bullish_zone) then
    [TechFactor.volume_momentum_confluence] else []) ++
  (if 8 < rsi_result.score ∧ 10 < macd_result.score ∧ 8 < volume_result.score then
    [TechFactor.triple_bullish_confluence] else []) ++
  (if macd_result.signals.contains MacdTag.bullish_crossover ∧
      volume_result.signals.contains VolTag.explosive_volume then
    [TechFactor.momentum_breakout] else [])

/-- `TechnicalAnalyzer._calculate_technical_score`: sum of the three
indicator scores plus a confluence bonus (5 / 4 / 2 points per factor,
capped at 10), the grand total capped at `TECHNICAL_MAX_SCORE = 50`. -/
def calculate_technical_score (rsi_result : IndicatorResult RsiTag)
    (macd_result : IndicatorResult MacdTag) (volume_result : IndicatorResult VolTag)
    (confluence_factors : List TechFactor) : ℕ :=
  let confluence_bonus : ℕ :=
    (confluence_factors.map fun f =>
      match f with
      | TechFactor.triple_bullish_confluence => 5
      | TechFactor.momentum_breakout => 4
      | TechFactor.rsi_macd_bullish => 2
      | TechFactor.volume_momentum_confluence => 2).sum
  min (rsi_result.score + macd_result.score + volume_result.score +
    min confluence_bonus 10) TECHNICAL_MAX_SCORE

/-- The `symbol_data` fields inspected by `_validate_technical_data`.
`none` models a missing key; `some []` a present-but-falsy (empty) one. -/
structure TechInput where
  price_data : Option (List ℚ)
  volume_data : Option (List ℚ)
deriving DecidableEq, Repr

/-- `TechnicalAnalyzer._validate_technical_data`: both `price_data` and
`volume_data` must be present and non-empty and the price series must
hold at least 50 points. -/
def validate_technical_data (d : TechInput) : Bool :=
  match d.price_data, d.volume_data with
  | some ps, some vs => ¬ps.isEmpty ∧ ¬vs.isEmpty ∧ 50 ≤ ps.length
  | _, _ => false

/-- Result of `analyze_symbol_technicals`: the technical score and whether
the `'error' = 'Insufficient data for technical analysis'` key was set. -/
structure TechResult where
  technical_score : ℕ
  insufficient_data : Bool
deriving DecidableEq, Repr

/-- `TechnicalAnalyzer.analyze_symbol_technicals`: validation gate, then
the three indicator analyses, confluence factors and the total score.
The indicator-library outputs (RSI value and trend, MACD lines, volume
aggregates) are abstracted as inputs; the function is total, mirroring
the source's guarantee that no exception escapes the component. -/
def analyze_symbol_technicals (d : TechInput) (current_rsi : ℚ) (rsi_trend : Trend3)
    (macd_line signal_line histogram : ℚ) (recent_bullish_crossover : Bool)
    (macd_trend : Trend3) (current_volume average_volume : ℚ) (volume_trend : VolTrend) :
    TechResult :=
  if ¬validate_technical_data d then
    { technical_score := 0, insufficient_data := true }
  else
    let rsi_result := analyze_rsi_momentum current_rsi rsi_trend
    let macd_result :=
      analyze_macd_momentum macd_line signal_line histogram recent_bullish_crossover
        macd_trend
    let volume_result := analyze_volume_momentum current_volume average_volume volume_trend
    { technical_score :=
        calculate_technical_score rsi_result macd_result volume_result
          (identify_confluence_factors rsi_result macd_result volume_result)
      insufficient_data := false }

/-! ## Confluence Validator (src/indicators/confluence_validator.py) -/

/-- Python `int(...)` on an exact rational: truncation toward zero. -/
def rat_trunc (q : ℚ) : ℤ :=
  if 0 ≤ q then Int.floor q else Int.ceil q

/-- `ConfluenceValidator._calculate_confluence_score`: a step function of
the bullish timeframe count (0–15), a strength component from the average
per-timeframe momentum (`max(0, min(int(avg * 0.6), 6))`, added only when
there are analyzed timeframes), and a consistency component from the
weighted bullish fraction (0–4), capped at `CONFLUENCE_MAX_SCORE = 25`.
`bullish_frac` is the source's `bullish_ratio` (bullish weight over total
weight); `momentum_strengths` are the per-timeframe `momentum_strength`
values of `timeframe_analysis`. -/
def calculate_confluence_score (bullish_count : ℕ) (bullish_frac : ℚ)
    (momentum_strengths : List ℤ) : ℤ :=
  let timeframe_score : ℤ :=
    if 4 ≤ bullish_count then 15
    else if bullish_count = 3 then 12
    else if bullish_count = 2 then 8
    else if bullish_count = 1 then 3
    else 0
  let strength_part : ℤ :=
    if momentum_strengths.isEmpty then 0
    else
      let avg_momentum : ℚ :=
        ((momentum_strengths.map fun m => (m : ℚ)).sum) / momentum_strengths.length
      max 0 (min (rat_trunc (avg_momentum * (3 / 5))) 6)
  let consistency_score : ℤ :=
    if 9 / 10 ≤ bullish_frac then 4
    else if 3 / 4 ≤ bullish_frac then 3
    else if 3 / 5 ≤ bullish_frac then 2
    else if 1 / 2 ≤ bullish_frac then 1
    else 0
  min (timeframe_score + strength_part + consistency_score) CONFLUENCE_MAX_SCORE

/-! ## Rolling candle buffer (src/data/data_fetcher.py) -/

/-- `MassiveDataCollector._process_kline_data`, buffer part: only closed
candles are appended; after the append, if the list exceeds 200 entries
the oldest (index 0) is popped. Polymorphic in the candle payload. -/
def process_kline_data {α : Type} (buf : List α) (kline : α) (is_closed : Bool) : List α :=
  if ¬is_closed then buf
  else
    let appended := buf ++ [kline]
    if 200 < appended.length then appended.tail else appended

/-! ## Trend averaging (src/utils/signal_averaging.py) -/

/-- One analysis entry of a symbol's trend window; the fields
`_calculate_trend` averages. -/
structure TrendEntry where
  momentum_score : ℚ
  probability_7_5 : ℚ
deriving DecidableEq, Repr

/-- Trend directions returned by `_calculate_trend`. -/
inductive TrendDirection
  | neutral
  | strengthening
  | weakening
  | stable
deriving DecidableEq, Repr

/-- Trend strengths returned by `_calculate_trend`. -/
inductive TrendStrength
  | unknown
  | strong
  | moderate
  | minimal
deriving DecidableEq, Repr

/-- The dict returned by `SignalAveraging._calculate_trend` (without the
derived `trend_score`, which no claim reads). -/
structure TrendInfo where
  direction : TrendDirection
  strength : TrendStrength
  momentum_change : ℚ
  probability_change : ℚ
deriving DecidableEq, Repr

/-- The inner `avg_field` helper of `_calculate_trend`: mean of a field
over the entries, `0` when the list is empty. -/
def avg_field (entries : List TrendEntry) (f : TrendEntry → ℚ) : ℚ :=
  if entries.isEmpty then 0 else (entries.map f).sum / entries.length

/-- `SignalAveraging._calculate_trend`: with fewer than 2 entries the
trend is neutral/unknown; otherwise the newer half (`history[len//2:]`)
and older half (`history[:len//2]`) are averaged, and their difference
classified (>+5 strengthening, <−5 weakening, else stable; strong above
±15, else moderate). The reported changes are rounded to 2 decimals, the
classification uses the unrounded difference. -/
def calculate_trend (history : List TrendEntry) : TrendInfo :=
  if history.length < 2 then
    { direction := TrendDirection.neutral
      strength := TrendStrength.unknown
      momentum_change := 0
      probability_change := 0 }
  else
    let recent_half := history.drop (history.length / 2)
    let older_half := history.take (history.length / 2)
    let momentum_change :=
      avg_field recent_half (fun e => e.momentum_score) -
        avg_field older_half (fun e => e.momentum_score)
    let probability_change :=
      avg_field recent_half (fun e => e.probability_7_5) -
        avg_field older_half (fun e => e.probability_7_5)
    let dir_strength : TrendDirection × TrendStrength :=
      if 5 < momentum_change then
        (TrendDirection.strengthening,
          if 15 < momentum_change then TrendStrength.strong else TrendStrength.moderate)
      else if momentum_change < -5 then
        (TrendDirection.weakening,
          if momentum_change < -15 then TrendStrength.strong else TrendStrength.moderate)
      else (TrendDirection.stable, TrendStrength.minimal)
    { direction := dir_strength.1
      strength := dir_strength.2
      momentum_change := python_round 2 momentum_change
      probability_change := python_round 2 probability_change }

/-- `deque(maxlen=window_size).append`: append on the right, dropping the
leftmost entry when the capacity is exceeded (as in
`SignalAveraging.add_signal`). -/
def window_append (window_size : ℕ) (window : List TrendEntry) (entry : TrendEntry) :
    List TrendEntry :=
  let appended := window ++ [entry]
  if window_size < appended.length then appended.tail else appended

/-- Feeding the same analysis entry `n` times into an initially empty
trend window (repeated `SignalAveraging.add_signal` calls). -/
def feed_constant (window_size : ℕ) (entry : TrendEntry) : ℕ → List TrendEntry
  | 0 => []
  | n + 1 => window_append window_size (feed_constant window_size entry n) entry

/-! ## Signal Generator (src/signals/signal_generator.py) -/

/-- The fields of a formatted trading signal
(`SignalGenerator._format_trading_signal`) that later generator logic
reads back: `symbol` and `timestamp` (deduplication), plus the confidence
level and total score. -/
structure TradingSignal where
  symbol : Option String
  timestamp : ℕ
  confidence_level : ConfidenceLevel
  total_score : ℤ
deriving DecidableEq, Repr

/-- `SignalGenerator`'s mutable state: `generated_signals`,
`daily_signal_count`, `last_reset_date`. -/
structure GenState where
  generated_signals : List TradingSignal
  daily_signal_count : ℕ
  last_reset_date : ℕ
deriving DecidableEq, Repr

/-- `datetime.now().date()` for a timestamp in minutes. -/
def date_of (t : ℕ) : ℕ := t / 1440

/-- `SignalGenerator._meets_minimum_criteria`, mirroring the source's
early returns: total score ≥ 45 (≥ 55 for a DÉBIL signal), a buy
recommendation, target probability ≥ 0.35, and at least 2 of 3 component
scores at their "decent" thresholds (12 / 25 / 12). -/
def meets_minimum_criteria (s : UnifiedSignal) : Bool :=
  if s.total_score < 45 then false
  else if s.confidence_level = ConfidenceLevel.DEBIL ∧ s.total_score < 55 then false
  else if ¬(s.recommendation = Recommendation.STRONG_BUY ∨
      s.recommendation = Recommendation.BUY ∨
      s.recommendation = Recommendation.WEAK_BUY) then false
  else if s.target_probability < 35 / 100 then false
  else if ((if 12 ≤ s.historical_score then 1 else 0) +
      (if 25 ≤ s.technical_score then 1 else 0) +
      (if 12 ≤ s.confluence_score then 1 else 0) : ℕ) < 2 then false
  else true

/-- `SignalGenerator._is_duplicate_signal`: a signal with a missing/falsy
symbol is a duplicate; otherwise the generated history is scanned for a
same-symbol signal newer than `now − 2 hours`. -/
def is_duplicate_signal (generated : List TradingSignal) (now : ℕ) (s : UnifiedSignal) :
    Bool :=
  match s.symbol with
  | none => true
  | some sym =>
    generated.any fun prev =>
      decide (prev.symbol = some sym) && decide ((now : ℤ) - 120 < (prev.timestamp : ℤ))

/-- `SignalGenerator._filter_candidate_signals`: keep signals that meet
the minimum criteria, are not duplicates, and — once the daily target is
reached — are FUERTE. -/
def filter_candidate_signals (st : GenState) (now : ℕ) (unified : List UnifiedSignal) :
    List UnifiedSignal :=
  unified.filter fun s =>
    meets_minimum_criteria s && !is_duplicate_signal st.generated_signals now s &&
      (decide (st.daily_signal_count < TARGET_DAILY_SIGNALS) ||
        decide (s.confidence_level = ConfidenceLevel.FUERTE))

/-- `confidence_weights` of `_prioritize_signals`. -/
def confidence_weight : ConfidenceLevel → ℚ
  | ConfidenceLevel.FUERTE => 20
  | ConfidenceLevel.ALTO => 15
  | ConfidenceLevel.MEDIO => 10
  | ConfidenceLevel.DEBIL => 5

/-- `rec_weights` of `_prioritize_signals` (`HOLD` falls to the dict
default 0). -/
def recommendation_weight : Recommendation → ℚ
  | Recommendation.STRONG_BUY => 10
  | Recommendation.BUY => 8
  | Recommendation.WEAK_BUY => 6
  | Recommendation.WATCH => 3
  | Recommendation.HOLD => 0

/-- `SignalGenerator._calculate_balance_score`: one minus the standard
deviation of the three normalized component scores, floored at 0. The
source's `variance ** 0.5` forces a real-valued model. -/
noncomputable def calculate_balance_score (s : UnifiedSignal) : ℝ :=
  let hist_norm : ℝ := (s.historical_score : ℝ) / 25
  let tech_norm : ℝ := (s.technical_score : ℝ) / 50
  let conf_norm : ℝ := (s.confluence_score : ℝ) / 25
  let mean_score : ℝ := (hist_norm + tech_norm + conf_norm) / 3
  let variance : ℝ :=
    ((hist_norm - mean_score) ^ 2 + (tech_norm - mean_score) ^ 2 +
      (conf_norm - mean_score) ^ 2) / 3
  max 0 (1 - Real.sqrt variance)

/-- `calculate_priority_score` of `_prioritize_signals`. -/
noncomputable def calculate_priority_score (s : UnifiedSignal) : ℝ :=
  ((s.total_score : ℝ) / 100) * 40 + (s.target_probability : ℝ) * 25 +
    (confidence_weight s.confidence_level : ℝ) +
    (recommendation_weight s.recommendation : ℝ) +
    calculate_balance_score s * 5

/-- Stable descending insertion: `x` is placed before the first element
whose priority does not exceed `x`'s. -/
noncomputable def insert_by_priority (x : UnifiedSignal) :
    List UnifiedSignal → List UnifiedSignal
  | [] => [x]
  | y :: ys =>
    if calculate_priority_score y ≤ calculate_priority_score x then x :: y :: ys
    else y :: insert_by_priority x ys

/-- `SignalGenerator._prioritize_signals`:
`sorted(candidates, key=priority, reverse=True)` — the stable descending
sort by priority score, realized as stable insertion sort (stable sorts
by the same key coincide). -/
noncomputable def prioritize_signals : List UnifiedSignal → List UnifiedSignal
  | [] => []
  | x :: xs => insert_by_priority x (prioritize_signals xs)

/-- One selection pass of `_select_final_signals`: walk the prioritized
list, picking signals accepted by `ok` (a function of the signal and the
number of picks made in this pass) whose symbol is not yet selected;
every pick consumes one remaining slot, and the pass stops when no slot
remains. -/
def select_phase (ok : UnifiedSignal → ℕ → Bool) :
    List UnifiedSignal → List UnifiedSignal → List (Option String) → ℕ → ℕ →
      List UnifiedSignal × List (Option String) × ℕ
  | [], acc, syms, rem, _ => (acc, syms, rem)
  | s :: rest, acc, syms, rem, cnt =>
    if rem = 0 then (acc, syms, rem)
    else if ok s cnt && !decide (s.symbol ∈ syms) then
      select_phase ok rest (acc ++ [s]) (syms ++ [s.symbol]) (rem - 1) (cnt + 1)
    else select_phase ok rest acc syms rem cnt

/-- Priority-1 pass of `_select_final_signals`: FUERTE signals, at most 3
of them. -/
def select_fuerte_pass (prioritized : List UnifiedSignal) (r0 : ℕ) :
    List UnifiedSignal × List (Option String) × ℕ :=
  select_phase
    (fun s c => decide (s.confidence_level = ConfidenceLevel.FUERTE) && decide (c < 3))
    prioritized [] [] r0 0

/-- Priority-2 pass of `_select_final_signals`: ALTO signals, run only
while slots remain. -/
def select_alto_pass (prioritized : List UnifiedSignal)
    (p : List UnifiedSignal × List (Option String) × ℕ) :
    List UnifiedSignal × List (Option String) × ℕ :=
  if p.2.2 = 0 then p
  else
    select_phase (fun s _ => decide (s.confidence_level = ConfidenceLevel.ALTO))
      prioritized p.1 p.2.1 p.2.2 0

/-- Priority-3 pass of `_select_final_signals`: MEDIO signals with total
score ≥ 65, run only while slots remain. -/
def select_medio_pass (prioritized : List UnifiedSignal)
    (p : List UnifiedSignal × List (Option String) × ℕ) :
    List UnifiedSignal × List (Option String) × ℕ :=
  if p.2.2 = 0 then p
  else
    select_phase (fun _ _ => true)
      (prioritized.filter fun s =>
        decide (s.confidence_level = ConfidenceLevel.MEDIO) && decide (65 ≤ s.total_score))
      p.1 p.2.1 p.2.2 0

/-- `SignalGenerator._select_final_signals`: if the daily target is
already reached, return (up to) 2 additional FUERTE signals; otherwise
fill the remaining slots with FUERTE signals (at most 3 of them), then
ALTO signals, then MEDIO signals scoring ≥ 65, one slot per distinct
symbol. -/
def select_final_signals (st : GenState) (prioritized : List UnifiedSignal) :
    List UnifiedSignal :=
  if (TARGET_DAILY_SIGNALS : ℤ) - st.daily_signal_count ≤ 0 then
    (prioritized.filter fun s =>
      decide (s.confidence_level = ConfidenceLevel.FUERTE)).take 2
  else
    (select_medio_pass prioritized
      (select_alto_pass prioritized
        (select_fuerte_pass prioritized (TARGET_DAILY_SIGNALS - st.daily_signal_count)))).1

/-- `SignalGenerator._format_trading_signal`, restricted to the fields
later generator logic reads (`timestamp` is the formatting time). -/
def format_trading_signal (now : ℕ) (s : UnifiedSignal) : TradingSignal :=
  { symbol := s.symbol
    timestamp := now
    confidence_level := s.confidence_level
    total_score := s.total_score }

/-- `SignalGenerator._reset_daily_count_if_needed`: on a date change,
reset the daily count and drop generated signals older than 24 hours. -/
def reset_daily_count_if_needed (st : GenState) (now : ℕ) : GenState :=
  if date_of now ≠ st.last_reset_date then
    { generated_signals :=
        st.generated_signals.filter fun s => decide ((now : ℤ) - 1440 < (s.timestamp : ℤ))
      daily_signal_count := 0
      last_reset_date := date_of now }
  else st

/-- `SignalGenerator.generate_final_signals`: reset the daily counter if
the date changed, filter candidates, sort by priority, select the final
signals, format them, append them to the history and bump the daily
count. Returns the emitted trading signals and the new state. -/
noncomputable def generate_final_signals (st : GenState) (now : ℕ)
    (unified : List UnifiedSignal) : List TradingSignal × GenState :=
  let st1 := reset_daily_count_if_needed st now
  let candidates := filter_candidate_signals st1 now unified
  let prioritized := prioritize_signals candidates
  let finals := select_final_signals st1 prioritized
  let trading := finals.map (format_trading_signal now)
  (trading,
    { generated_signals := st1.generated_signals ++ trading
      daily_signal_count := st1.daily_signal_count + trading.length
      last_reset_date := st1.last_reset_date })

/-- Modelled from the spec: the Signal Generator eligibility gate exactly
as the spec words it — "totalScore ≥ 45 (≥55 if tier is WEAK),
recommendation ∈ {STRONG_BUY, BUY, WEAK_BUY}, targetProbability ≥ 0.35,
and at least 2 of 3 sub-scores above 50% of their maximum" (strictly above
12.5 of 25, 25 of 50, 12.5 of 25). Used only to compare the spec's words
with `meets_minimum_criteria`. -/
def eligibility_gate_spec (s : UnifiedSignal) : Prop :=
  45 ≤ s.total_score ∧
  (s.confidence_level = ConfidenceLevel.DEBIL → 55 ≤ s.total_score) ∧
  (s.recommendation = Recommendation.STRONG_BUY ∨ s.recommendation = Recommendation.BUY ∨
    s.recommendation = Recommendation.WEAK_BUY) ∧
  35 / 100 ≤ s.target_probability ∧
  2 ≤ ((if (25 : ℚ) / 2 < (s.historical_score : ℚ) then 1 else 0) +
    (if (25 : ℚ) < (s.technical_score : ℚ) then 1 else 0) +
    (if (25 : ℚ) / 2 < (s.confluence_score : ℚ) then 1 else 0) : ℕ)

instance (s : UnifiedSignal) : Decidable (eligibility_gate_spec s) := by
  unfold eligibility_gate_spec
  infer_instance

/-- The half-window momentum difference of `_calculate_trend`: mean
`momentum_score` of the newer half minus that of the older half. -/
def momentum_half_change (history : List TrendEntry) : ℚ :=
  avg_field (history.drop (history.length / 2)) (fun e => e.momentum_score) -
    avg_field (history.take (history.length / 2)) (fun e => e.momentum_score)

/-- Number of signals for `sym` in the generated history newer than
`now − 2 hours` (the entries `_is_duplicate_signal` scans for). -/
def recent_same_symbol_count (generated : List TradingSignal) (now : ℕ) (sym : String) :
    ℕ :=
  (generated.filter fun p =>
    decide (p.symbol = some sym) && decide ((now : ℤ) - 120 < (p.timestamp : ℤ))).length

/-- A unified signal with sub-scores (15, 35, 22): total 72, tier ALTO,
recommendation BUY, target probability 0.86. Used to exercise the daily
quota. -/
def sig_alto (sym : String) : UnifiedSignal :=
  unify_signals sym 0 15 35 22

/-- A unified signal with sub-scores (22, 44, 22): total 88, tier FUERTE,
recommendation STRONG_BUY, target probability 0.95. Used to exercise the
STRONG overflow branch. -/
def sig_fuerte (sym : String) : UnifiedSignal :=
  unify_signals sym 0 22 44 22

/-- Generator state after a first cycle (time 0, day 0) fed three eligible
ALTO signals for distinct symbols. -/
noncomputable def c5_state1 : GenState :=
  (generate_final_signals
    { generated_signals := [], daily_signal_count := 0, last_reset_date := 0 } 0
    [sig_alto "AAA", sig_alto "BBB", sig_alto "CCC"]).2

/-- State after a second cycle (time 30, same day) fed two FUERTE signals
for two fresh symbols, with the daily quota already exhausted. -/
noncomputable def c5_state2 : GenState :=
  (generate_final_signals c5_state1 30 [sig_fuerte "DDD", sig_fuerte "EEE"]).2

/-- State after a third cycle (time 60, same day) fed two more FUERTE
signals for two more fresh symbols. -/
noncomputable def c5_state3 : GenState :=
  (generate_final_signals c5_state2 60 [sig_fuerte "FFF", sig_fuerte "GGG"]).2

/-! ## Helper lemmas -/

theorem feed_constant_eq_replicate (cap : ℕ) (e : TrendEntry) (n : ℕ) :
    feed_constant cap e n = List.replicate (min n cap) e := by
  induction n with
  | zero => simp [feed_constant]
  | succ n ih =>
    rw [feed_constant, ih, window_append, ← List.replicate_succ']
    by_cases h : cap ≤ n
    · rw [min_eq_right h, List.length_replicate, if_pos (by omega)]
      rw [List.tail_replicate]
      congr 1
      omega
    · rw [min_eq_left (by omega), List.length_replicate, if_neg (by omega)]
      congr 1
      omega

theorem avg_field_replicate (k : ℕ) (hk : k ≠ 0) (e : TrendEntry) (f : TrendEntry → ℚ) :
    avg_field (List.replicate k e) f = f e := by
  unfold avg_field
  rw [if_neg (by simp [List.isEmpty_iff, List.replicate_eq_nil_iff, hk])]
  rw [List.map_replicate, List.sum_replicate, List.length_replicate, nsmul_eq_mul]
  have hk0 : (k : ℚ) ≠ 0 := Nat.cast_ne_zero.mpr hk
  field_simp

theorem calculate_trend_replicate (m : ℕ) (hm : 2 ≤ m) (e : TrendEntry) :
    (calculate_trend (List.replicate m e)).direction = TrendDirection.stable := by
  have h1 : avg_field ((List.replicate m e).drop (m / 2)) (fun x => x.momentum_score) =
      e.momentum_score := by
    rw [List.drop_replicate]
    exact avg_field_replicate _ (by omega) _ _
  have h2 : avg_field ((List.replicate m e).take (m / 2)) (fun x => x.momentum_score) =
      e.momentum_score := by
    rw [List.take_replicate]
    exact avg_field_replicate _ (by omega) _ _
  simp only [calculate_trend, List.length_replicate]
  rw [if_neg (by omega)]
  rw [h1, h2]
  norm_num

theorem meets_minimum_criteria_iff (s : UnifiedSignal) :
    meets_minimum_criteria s = true ↔
      (45 ≤ s.total_score ∧
       (s.confidence_level = ConfidenceLevel.DEBIL → 55 ≤ s.total_score) ∧
       (s.recommendation = Recommendation.STRONG_BUY ∨
         s.recommendation = Recommendation.BUY ∨
         s.recommendation = Recommendation.WEAK_BUY) ∧
       35 / 100 ≤ s.target_probability ∧
       2 ≤ ((if 12 ≤ s.historical_score then 1 else 0) +
         (if 25 ≤ s.technical_score then 1 else 0) +
         (if 12 ≤ s.confluence_score then 1 else 0) : ℕ)) := by
  unfold meets_minimum_criteria
  by_cases h1 : s.total_score < 45
  · rw [if_pos h1]
    simp only [Bool.false_eq_true, false_iff]
    rintro ⟨p1, -, -, -, -⟩
    omega
  · rw [if_neg h1]
    by_cases h2 : s.confidence_level = ConfidenceLevel.DEBIL ∧ s.total_score < 55
    · rw [if_pos h2]
      simp only [Bool.false_eq_true, false_iff]
      rintro ⟨-, p2, -, -, -⟩
      have := p2 h2.1
      omega
    · rw [if_neg h2]
      by_cases h3 : s.recommendation = Recommendation.STRONG_BUY ∨
          s.recommendation = Recommendation.BUY ∨
          s.recommendation = Recommendation.WEAK_BUY
      · rw [if_neg (not_not_intro h3)]
        by_cases h4 : s.target_probability < 35 / 100
        · rw [if_pos h4]
          simp only [Bool.false_eq_true, false_iff]
          rintro ⟨-, -, -, p4, -⟩
          linarith
        · rw [if_neg h4]
          by_cases h5 : ((if 12 ≤ s.historical_score then 1 else 0) +
              (if 25 ≤ s.technical_score then 1 else 0) +
              (if 12 ≤ s.confluence_score then 1 else 0) : ℕ) < 2
          · rw [if_pos h5]
            simp only [Bool.false_eq_true, false_iff]
            rintro ⟨-, -, -, -, p5⟩
            omega
          · rw [if_neg h5]
            constructor
            · intro _
              refine ⟨by omega, fun hd => ?_, h3, le_of_not_lt h4, by omega⟩
              by_contra hlt
              exact h2 ⟨hd, by omega⟩
            · intro _
              rfl
      · rw [if_pos h3]
        simp only [Bool.false_eq_true, false_iff]
        rintro ⟨-, -, p3, -, -⟩
        exact h3 p3

theorem insert_by_priority_perm (x : UnifiedSignal) (l : List UnifiedSignal) :
    (insert_by_priority x l).Perm (x :: l) := by
  induction l with
  | nil => simp [insert_by_priority]
  | cons y ys ih =>
    unfold insert_by_priority
    split_ifs with h
    · exact List.Perm.refl _
    · exact (ih.cons y).trans (List.Perm.swap x y ys)

theorem prioritize_signals_perm (l : List UnifiedSignal) :
    (prioritize_signals l).Perm l := by
  induction l with
  | nil => exact List.Perm.refl _
  | cons x xs ih =>
    exact (insert_by_priority_perm x (prioritize_signals xs)).trans (ih.cons x)

theorem select_phase_length (ok : UnifiedSignal → ℕ → Bool) (l : List UnifiedSignal) :
    ∀ acc syms rem cnt,
      (select_phase ok l acc syms rem cnt).1.length +
        (select_phase ok l acc syms rem cnt).2.2 = acc.length + rem := by
  induction l with
  | nil => intro acc syms rem cnt; rfl
  | cons s rest ih =>
    intro acc syms rem cnt
    simp only [select_phase]
    by_cases h0 : rem = 0
    · rw [if_pos h0]
    · rw [if_neg h0]
      by_cases hp : (ok s cnt && !decide (s.symbol ∈ syms)) = true
      · rw [if_pos hp, ih]
        simp only [List.length_append, List.length_singleton]
        omega
      · rw [if_neg hp, ih]

theorem select_phase_mem (ok : UnifiedSignal → ℕ → Bool) (l : List UnifiedSignal) :
    ∀ acc syms rem cnt t, t ∈ (select_phase ok l acc syms rem cnt).1 →
      t ∈ acc ∨ t ∈ l := by
  induction l with
  | nil =>
    intro acc syms rem cnt t ht
    exact Or.inl ht
  | cons s rest ih =>
    intro acc syms rem cnt t ht
    simp only [select_phase] at ht
    by_cases h0 : rem = 0
    · rw [if_pos h0] at ht
      exact Or.inl ht
    · rw [if_neg h0] at ht
      by_cases hp : (ok s cnt && !decide (s.symbol ∈ syms)) = true
      · rw [if_pos hp] at ht
        rcases ih _ _ _ _ t ht with hacc | hrest
        · rcases List.mem_append.mp hacc with h | h
          · exact Or.inl h
          · exact Or.inr (by simp at h; simp [h])
        · exact Or.inr (List.mem_cons_of_mem s hrest)
      · rw [if_neg hp] at ht
        rcases ih _ _ _ _ t ht with hacc | hrest
        · exact Or.inl hacc
        · exact Or.inr (List.mem_cons_of_mem s hrest)

theorem select_phase_skip (ok : UnifiedSignal → ℕ → Bool) (l : List UnifiedSignal)
    (hok : ∀ s ∈ l, ∀ c, ok s c = false) :
    ∀ acc syms rem cnt, select_phase ok l acc syms rem cnt = (acc, syms, rem) := by
  induction l with
  | nil => intro acc syms rem cnt; rfl
  | cons s rest ih =>
    intro acc syms rem cnt
    simp only [select_phase]
    by_cases h0 : rem = 0
    · rw [if_pos h0, h0]
    · rw [if_neg h0, if_neg (by simp [hok s (List.mem_cons_self s rest) cnt])]
      exact ih (fun x hx c => hok x (List.mem_cons_of_mem s hx) c) acc syms rem cnt

theorem select_phase_all (ok : UnifiedSignal → ℕ → Bool) (l : List UnifiedSignal) :
    ∀ acc syms rem cnt,
      (∀ s ∈ l, ∀ c, ok s c = true) →
      (l.map fun s => s.symbol).Nodup →
      (∀ s ∈ l, s.symbol ∉ syms) →
      l.length ≤ rem →
      (select_phase ok l acc syms rem cnt).1 = acc ++ l := by
  induction l with
  | nil =>
    intro acc syms rem cnt _ _ _ _
    simp [select_phase]
  | cons s rest ih =>
    intro acc syms rem cnt hok hnd hfresh hlen
    have h0 : rem ≠ 0 := by
      simp only [List.length_cons] at hlen
      omega
    simp only [select_phase]
    rw [if_neg h0, if_pos (by
      simp [hok s (List.mem_cons_self s rest) cnt,
        hfresh s (List.mem_cons_self s rest)])]
    rw [ih (acc ++ [s]) (syms ++ [s.symbol]) (rem - 1) (cnt + 1)
      (fun x hx c => hok x (List.mem_cons_of_mem s hx) c)
      ((List.nodup_cons.mp (by simpa using hnd)).2)
      ?_ (by simp only [List.length_cons] at hlen; omega)]
    · simp
    · intro x hx
      have hx1 : x.symbol ∉ syms := hfresh x (List.mem_cons_of_mem s hx)
      have hx2 : x.symbol ≠ s.symbol := by
        intro he
        have : s.symbol ∈ rest.map fun y => y.symbol := by
          rw [← he]
          exact List.mem_map_of_mem _ hx
        exact (List.nodup_cons.mp (by simpa using hnd)).1 this
      simp [hx1, hx2]

theorem select_alto_pass_length (pr : List UnifiedSignal)
    (p : List UnifiedSignal × List (Option String) × ℕ) :
    (select_alto_pass pr p).1.length + (select_alto_pass pr p).2.2 =
      p.1.length + p.2.2 := by
  unfold select_alto_pass
  split_ifs with h
  · rfl
  · exact select_phase_length _ pr p.1 p.2.1 p.2.2 0

theorem select_medio_pass_length (pr : List UnifiedSignal)
    (p : List UnifiedSignal × List (Option String) × ℕ) :
    (select_medio_pass pr p).1.length + (select_medio_pass pr p).2.2 =
      p.1.length + p.2.2 := by
  unfold select_medio_pass
  split_ifs with h
  · rfl
  · exact select_phase_length _ _ p.1 p.2.1 p.2.2 0

theorem select_final_signals_length (st : GenState) (pr : List UnifiedSignal)
    (h : st.daily_signal_count < TARGET_DAILY_SIGNALS) :
    (select_final_signals st pr).length ≤
      TARGET_DAILY_SIGNALS - st.daily_signal_count := by
  unfold select_final_signals
  rw [if_neg (by simp only [TARGET_DAILY_SIGNALS] at h ⊢; omega)]
  have h1 := select_phase_length
    (fun s c => decide (s.confidence_level = ConfidenceLevel.FUERTE) && decide (c < 3))
    pr [] [] (TARGET_DAILY_SIGNALS - st.daily_signal_count) 0
  have h2 := select_alto_pass_length pr
    (select_fuerte_pass pr (TARGET_DAILY_SIGNALS - st.daily_signal_count))
  have h3 := select_medio_pass_length pr
    (select_alto_pass pr
      (select_fuerte_pass pr (TARGET_DAILY_SIGNALS - st.daily_signal_count)))
  have h1' : (select_fuerte_pass pr (TARGET_DAILY_SIGNALS - st.daily_signal_count)).1.length +
      (select_fuerte_pass pr (TARGET_DAILY_SIGNALS - st.daily_signal_count)).2.2 =
      TARGET_DAILY_SIGNALS - st.daily_signal_count := by
    simpa using h1
  omega

theorem select_final_signals_subset (st : GenState) (pr : List UnifiedSignal) :
    ∀ t ∈ select_final_signals st pr, t ∈ pr := by
  intro t ht
  unfold select_final_signals at ht
  split_ifs at ht with h
  · exact (List.mem_filter.mp (List.mem_of_mem_take ht)).1
  · have h3 : t ∈ (select_alto_pass pr
        (select_fuerte_pass pr (TARGET_DAILY_SIGNALS - st.daily_signal_count))).1 ∨
        t ∈ pr := by
      unfold select_medio_pass at ht
      split_ifs at ht with hm
      · exact Or.inl ht
      · rcases select_phase_mem _ _ _ _ _ _ t ht with hacc | hfil
        · exact Or.inl hacc
        · exact Or.inr (List.mem_filter.mp hfil).1
    rcases h3 with h3 | h3
    · have h2 : t ∈ (select_fuerte_pass pr
          (TARGET_DAILY_SIGNALS - st.daily_signal_count)).1 ∨ t ∈ pr := by
        unfold select_alto_pass at h3
        split_ifs at h3 with ha
        · exact Or.inl h3
        · exact select_phase_mem _ _ _ _ _ _ t h3
      rcases h2 with h2 | h2
      · rcases select_phase_mem _ _ _ _ _ _ t h2 with hacc | hpr
        · simp at hacc
        · exact hpr
      · exact h2
    · exact h3

theorem select_final_signals_overflow (st : GenState) (pr : List UnifiedSignal)
    (h : TARGET_DAILY_SIGNALS ≤ st.daily_signal_count) :
    select_final_signals st pr =
      (pr.filter fun s => decide (s.confidence_level = ConfidenceLevel.FUERTE)).take 2 := by
  unfold select_final_signals
  rw [if_pos (by simp only [TARGET_DAILY_SIGNALS] at h ⊢; omega)]

theorem generate_final_signals_out (st : GenState) (now : ℕ)
    (unified : List UnifiedSignal) :
    (generate_final_signals st now unified).1 =
      (select_final_signals (reset_daily_count_if_needed st now)
        (prioritize_signals
          (filter_candidate_signals (reset_daily_count_if_needed st now) now
            unified))).map (format_trading_signal now) := rfl

theorem generate_final_signals_gen (st : GenState) (now : ℕ)
    (unified : List UnifiedSignal) :
    ((generate_final_signals st now unified).2).generated_signals =
      (reset_daily_count_if_needed st now).generated_signals ++
        (generate_final_signals st now unified).1 := rfl

theorem generate_final_signals_count (st : GenState) (now : ℕ)
    (unified : List UnifiedSignal) :
    ((generate_final_signals st now unified).2).daily_signal_count =
      (reset_daily_count_if_needed st now).daily_signal_count +
        (generate_final_signals st now unified).1.length := rfl

theorem generate_final_signals_last (st : GenState) (now : ℕ)
    (unified : List UnifiedSignal) :
    ((generate_final_signals st now unified).2).last_reset_date =
      (reset_daily_count_if_needed st now).last_reset_date := rfl

theorem generate_mem (st : GenState) (now : ℕ) (unified : List UnifiedSignal) :
    ∀ t ∈ (generate_final_signals st now unified).1,
      ∃ s, s ∈ filter_candidate_signals (reset_daily_count_if_needed st now) now unified ∧
        t = format_trading_signal now s := by
  intro t ht
  rw [generate_final_signals_out] at ht
  rcases List.mem_map.mp ht with ⟨s, hs, rfl⟩
  have h1 := select_final_signals_subset _ _ s hs
  exact ⟨s, (prioritize_signals_perm _).mem_iff.mp h1, rfl⟩

theorem candidate_not_duplicate {st1 : GenState} {now : ℕ} {unified : List UnifiedSignal}
    {s : UnifiedSignal} (h : s ∈ filter_candidate_signals st1 now unified) :
    is_duplicate_signal st1.generated_signals now s = false := by
  have h2 := (List.mem_filter.mp h).2
  simp only [Bool.and_eq_true, Bool.not_eq_true'] at h2
  exact h2.1.2

theorem reset_preserves_recent (st : GenState) (now : ℕ) (p : TradingSignal)
    (hp : p ∈ st.generated_signals) (hrecent : (now : ℤ) - 120 < (p.timestamp : ℤ)) :
    p ∈ (reset_daily_count_if_needed st now).generated_signals := by
  unfold reset_daily_count_if_needed
  split_ifs with h
  · refine List.mem_filter.mpr ⟨hp, ?_⟩
    simp only [decide_eq_true_eq]
    omega
  · exact hp

theorem recent_count_append (a b : List TradingSignal) (now : ℕ) (sym : String) :
    recent_same_symbol_count (a ++ b) now sym =
      recent_same_symbol_count a now sym + recent_same_symbol_count b now sym := by
  unfold recent_same_symbol_count
  rw [List.filter_append, List.length_append]

theorem recent_count_reset (st : GenState) (now : ℕ) (sym : String) :
    recent_same_symbol_count (reset_daily_count_if_needed st now).generated_signals now
      sym = recent_same_symbol_count st.generated_signals now sym := by
  unfold reset_daily_count_if_needed recent_same_symbol_count
  split_ifs with h
  · rw [List.filter_filter]
    apply congrArg List.length
    apply List.filter_congr
    intro p hp
    by_cases hsym : p.symbol = some sym
    · by_cases htime : (now : ℤ) - 120 < (p.timestamp : ℤ)
      · simp [hsym, htime]
        omega
      · simp [htime]
    · simp [hsym]
  · rfl

theorem sig_alto_meets (sym : String) : meets_minimum_criteria (sig_alto sym) = true := by
  rw [meets_minimum_criteria_iff]
  have hprob : (sig_alto sym).target_probability = 43 / 50 := by
    show calculate_target_probability 72 15 35 22 = 43 / 50
    unfold calculate_target_probability python_round round_half_even
    norm_num [min_def, max_def]
  have htot : (sig_alto sym).total_score = 72 := rfl
  have hconf : (sig_alto sym).confidence_level = ConfidenceLevel.ALTO := rfl
  refine ⟨by rw [htot]; norm_num, ?_, Or.inr (Or.inl rfl), by rw [hprob]; norm_num, ?_⟩
  · rw [hconf]
    intro hd
    exact absurd hd (by decide)
  · have e1 : (sig_alto sym).historical_score = 15 := rfl
    have e2 : (sig_alto sym).technical_score = 35 := rfl
    have e3 : (sig_alto sym).confluence_score = 22 := rfl
    rw [e1, e2, e3]
    norm_num

theorem sig_fuerte_meets (sym : String) :
    meets_minimum_criteria (sig_fuerte sym) = true := by
  rw [meets_minimum_criteria_iff]
  have hprob : (sig_fuerte sym).target_probability = 19 / 20 := by
    show calculate_target_probability 88 22 44 22 = 19 / 20
    unfold calculate_target_probability python_round round_half_even
    norm_num [min_def, max_def]
  have htot : (sig_fuerte sym).total_score = 88 := rfl
  have hconf : (sig_fuerte sym).confidence_level = ConfidenceLevel.FUERTE := rfl
  refine ⟨by rw [htot]; norm_num, ?_, Or.inl rfl, by rw [hprob]; norm_num, ?_⟩
  · rw [hconf]
    intro hd
    exact absurd hd (by decide)
  · have e1 : (sig_fuerte sym).historical_score = 22 := rfl
    have e2 : (sig_fuerte sym).technical_score = 44 := rfl
    have e3 : (sig_fuerte sym).confluence_score = 22 := rfl
    rw [e1, e2, e3]
    norm_num

theorem is_duplicate_eq_false (generated : List TradingSignal) (now : ℕ)
    (s : UnifiedSignal) (v : String) (hs : s.symbol = some v)
    (hnone : ∀ p ∈ generated, p.symbol ≠ some v) :
    is_duplicate_signal generated now s = false := by
  unfold is_duplicate_signal
  rw [hs]
  rw [List.any_eq_false]
  intro p hp
  simp only [Bool.and_eq_true, decide_eq_true_eq, not_and]
  intro hsym
  exact absurd hsym (hnone p hp)

theorem filter_eq_self_of (st : GenState) (now : ℕ) (b : List UnifiedSignal)
    (h : ∀ s ∈ b, meets_minimum_criteria s = true ∧
      is_duplicate_signal st.generated_signals now s = false ∧
      (st.daily_signal_count < TARGET_DAILY_SIGNALS ∨
        s.confidence_level = ConfidenceLevel.FUERTE)) :
    filter_candidate_signals st now b = b := by
  unfold filter_candidate_signals
  rw [List.filter_eq_self]
  intro s hs
  obtain ⟨h1, h2, h3⟩ := h s hs
  rcases h3 with h3 | h3
  · simp [h1, h2, h3]
  · simp [h1, h2, h3]

theorem reset_id_of_same_date (st : GenState) (now : ℕ)
    (h : date_of now = st.last_reset_date) :
    reset_daily_count_if_needed st now = st := by
  unfold reset_daily_count_if_needed
  rw [if_neg (not_not_intro h)]

theorem generate_fill_cycle (st : GenState) (now : ℕ) (b : List UnifiedSignal)
    (hdate : date_of now = st.last_reset_date)
    (hzero : st.daily_signal_count = 0)
    (hfil : filter_candidate_signals st now b = b)
    (halto : ∀ s ∈ b, s.confidence_level = ConfidenceLevel.ALTO)
    (hnodup : (b.map fun s => s.symbol).Nodup)
    (hblen : b.length = TARGET_DAILY_SIGNALS) :
    (generate_final_signals st now b).1.length = b.length ∧
    ((generate_final_signals st now b).2).daily_signal_count = b.length ∧
    ((generate_final_signals st now b).2).last_reset_date = st.last_reset_date ∧
    (∀ p ∈ ((generate_final_signals st now b).2).generated_signals,
      p ∈ st.generated_signals ∨ ∃ s ∈ b, p.symbol = s.symbol) := by
  have hreset := reset_id_of_same_date st now hdate
  have hperm := prioritize_signals_perm b
  have hsel : select_final_signals st (prioritize_signals b) = prioritize_signals b := by
    unfold select_final_signals
    rw [hzero]
    rw [if_neg (by norm_num [TARGET_DAILY_SIGNALS])]
    rw [Nat.sub_zero]
    have hf : select_fuerte_pass (prioritize_signals b) TARGET_DAILY_SIGNALS =
        ([], [], TARGET_DAILY_SIGNALS) := by
      apply select_phase_skip
      intro s hsmem c
      have := halto s (hperm.mem_iff.mp hsmem)
      simp [this]
    rw [hf]
    have halto1 : (select_alto_pass (prioritize_signals b)
        ([], [], TARGET_DAILY_SIGNALS)).1 = prioritize_signals b := by
      unfold select_alto_pass
      rw [if_neg (by decide)]
      have := select_phase_all
        (fun s _ => decide (s.confidence_level = ConfidenceLevel.ALTO))
        (prioritize_signals b) [] [] TARGET_DAILY_SIGNALS 0
        (fun s hsmem c => by simp [halto s (hperm.mem_iff.mp hsmem)])
        (((hperm.map fun s => s.symbol).nodup_iff).mpr hnodup)
        (fun s _ => List.not_mem_nil s.symbol)
        (by rw [hperm.length_eq, hblen])
      simpa using this
    have halto1r : (select_alto_pass (prioritize_signals b)
        ([], [], TARGET_DAILY_SIGNALS)).2.2 = 0 := by
      have hl := select_alto_pass_length (prioritize_signals b)
        ([], [], TARGET_DAILY_SIGNALS)
      rw [halto1] at hl
      rw [hperm.length_eq, hblen] at hl
      simp only [List.length_nil] at hl
      omega
    unfold select_medio_pass
    rw [if_pos halto1r]
    exact halto1
  have hout : (generate_final_signals st now b).1 =
      (prioritize_signals b).map (format_trading_signal now) := by
    rw [generate_final_signals_out, hreset, hfil, hsel]
  have houtlen : (generate_final_signals st now b).1.length = b.length := by
    rw [hout, List.length_map, hperm.length_eq]
  refine ⟨houtlen, ?_, ?_, ?_⟩
  · rw [generate_final_signals_count, hreset, hzero, houtlen]
    omega
  · rw [generate_final_signals_last, hreset]
  · intro p hp
    rw [generate_final_signals_gen, hreset] at hp
    rcases List.mem_append.mp hp with h | h
    · exact Or.inl h
    · rcases generate_mem st now b p h with ⟨s, hsc, rfl⟩
      rw [hreset, hfil] at hsc
      exact Or.inr ⟨s, hsc, rfl⟩

theorem generate_overflow_cycle (st : GenState) (now : ℕ) (b : List UnifiedSignal)
    (hdate : date_of now = st.last_reset_date)
    (hq : TARGET_DAILY_SIGNALS ≤ st.daily_signal_count)
    (hfil : filter_candidate_signals st now b = b)
    (hfuerte : ∀ s ∈ b, s.confidence_level = ConfidenceLevel.FUERTE)
    (hblen : b.length ≤ 2) :
    (generate_final_signals st now b).1.length = b.length ∧
    ((generate_final_signals st now b).2).daily_signal_count =
      st.daily_signal_count + b.length ∧
    ((generate_final_signals st now b).2).last_reset_date = st.last_reset_date ∧
    (∀ p ∈ ((generate_final_signals st now b).2).generated_signals,
      p ∈ st.generated_signals ∨ ∃ s ∈ b, p.symbol = s.symbol) := by
  have hreset := reset_id_of_same_date st now hdate
  have hperm := prioritize_signals_perm b
  have hsel : select_final_signals st (prioritize_signals b) = prioritize_signals b := by
    rw [select_final_signals_overflow st _ hq]
    rw [List.filter_eq_self.mpr (fun s hsmem => by
      simp [hfuerte s (hperm.mem_iff.mp hsmem)])]
    exact List.take_of_length_le (by rw [hperm.length_eq]; omega)
  have hout : (generate_final_signals st now b).1 =
      (prioritize_signals b).map (format_trading_signal now) := by
    rw [generate_final_signals_out, hreset, hfil, hsel]
  have houtlen : (generate_final_signals st now b).1.length = b.length := by
    rw [hout, List.length_map, hperm.length_eq]
  refine ⟨houtlen, ?_, ?_, ?_⟩
  · rw [generate_final_signals_count, hreset, houtlen]
  · rw [generate_final_signals_last, hreset]
  · intro p hp
    rw [generate_final_signals_gen, hreset] at hp
    rcases List.mem_append.mp hp with h | h
    · exact Or.inl h
    · rcases generate_mem st now b p h with ⟨s, hsc, rfl⟩
      rw [hreset, hfil] at hsc
      exact Or.inr ⟨s, hsc, rfl⟩

/-! ## Claim theorems -/

/-- C1: for all (even out-of-range) sub-score inputs, the unified signal's
total score equals the sum of the three sub-scores clamped into 0..100,
and in particular always lies between 0 and 100 inclusive. -/
theorem c1_total_score_clamped (symbol : String) (now : ℕ)
    (historical technical confluence : ℤ) :
    (unify_signals symbol now historical technical confluence).total_score =
      min (max (historical + technical + confluence) 0) 100 ∧
    0 ≤ (unify_signals symbol now historical technical confluence).total_score ∧
    (unify_signals symbol now historical technical confluence).total_score ≤ 100 := by
  refine ⟨rfl, ?_, ?_⟩
  · exact le_min (le_max_right _ _) (by norm_num)
  · exact min_le_right _ _

/-- C2: each analyzer's produced sub-score lies within its declared
bounds — the historical score in 0..25, the technical score (confluence
bonus included) in 0..50, and the confluence score in 0..25, for every
input. The historical and technical scores are `ℕ`-valued by
construction, so only the upper bounds are non-trivial there. -/
theorem c2_sub_scores_within_bounds :
    (∀ averages peaks patterns,
      calculate_historical_score averages peaks patterns ≤ HISTORICAL_MAX_SCORE) ∧
    (∀ d current_rsi rsi_trend macd_line signal_line histogram recent_cross macd_trend
        current_volume average_volume volume_trend,
      (analyze_symbol_technicals d current_rsi rsi_trend macd_line signal_line histogram
        recent_cross macd_trend current_volume average_volume
        volume_trend).technical_score ≤ TECHNICAL_MAX_SCORE) ∧
    (∀ bullish_count bullish_frac momentum_strengths,
      0 ≤ calculate_confluence_score bullish_count bullish_frac momentum_strengths ∧
      calculate_confluence_score bullish_count bullish_frac momentum_strengths ≤
        CONFLUENCE_MAX_SCORE) := by
  refine ⟨fun a p q => Nat.min_le_right _ _, ?_, ?_⟩
  · intro d current_rsi rsi_trend macd_line signal_line histogram recent_cross macd_trend
      current_volume average_volume volume_trend
    unfold analyze_symbol_technicals
    split
    · exact Nat.zero_le _
    · exact Nat.min_le_right _ _
  · intro bullish_count bullish_frac momentum_strengths
    constructor
    · simp only [calculate_confluence_score]
      refine le_min ?_ (by norm_num [CONFLUENCE_MAX_SCORE])
      have ht : (0 : ℤ) ≤
          if 4 ≤ bullish_count then 15 else if bullish_count = 3 then 12
          else if bullish_count = 2 then 8 else if bullish_count = 1 then 3 else 0 := by
        split_ifs <;> norm_num
      have hs : (0 : ℤ) ≤
          if momentum_strengths.isEmpty then 0
          else max 0 (min (rat_trunc
            (((momentum_strengths.map fun m => (m : ℚ)).sum / momentum_strengths.length) *
              (3 / 5))) 6) := by
        split_ifs
        · norm_num
        · exact le_max_left _ _
      have hc : (0 : ℤ) ≤
          if 9 / 10 ≤ bullish_frac then 4 else if 3 / 4 ≤ bullish_frac then 3
          else if 3 / 5 ≤ bullish_frac then 2 else if 1 / 2 ≤ bullish_frac then 1 else 0 := by
        split_ifs <;> norm_num
      omega
    · exact min_le_right _ _

/-- C3 counterexample: a total score of 10 lies in none of the configured
bands, yet `_classify_confidence_level` assigns it the tier `'DÉBIL'` via
its default return, while the spec's wording ("else DISCARDED") assigns
no tier at all. -/
theorem c3_counterexample_below_band :
    classify_confidence_level 10 = ConfidenceLevel.DEBIL ∧
    classify_confidence_spec 10 = none := by
  exact ⟨rfl, rfl⟩

/-- C3 (amended): the confidence tier is a function of the total score
alone via the non-overlapping bands 85–100 FUERTE, 70–84 ALTO, 50–69
MEDIO and 30–49 DÉBIL — no score maps to two tiers — but a score in no
band (below 30 or above 100) is not discarded: it falls back to the
default tier `'DÉBIL'`. -/
theorem c3_confidence_bands (s : ℤ) :
    (classify_confidence_level s = ConfidenceLevel.FUERTE ↔ 85 ≤ s ∧ s ≤ 100) ∧
    (classify_confidence_level s = ConfidenceLevel.ALTO ↔ 70 ≤ s ∧ s ≤ 84) ∧
    (classify_confidence_level s = ConfidenceLevel.MEDIO ↔ 50 ≤ s ∧ s ≤ 69) ∧
    (classify_confidence_level s = ConfidenceLevel.DEBIL ↔
      (30 ≤ s ∧ s ≤ 49) ∨ s < 30 ∨ 100 < s) := by
  have haux : classify_confidence_level s =
      (if 85 ≤ s ∧ s ≤ 100 then ConfidenceLevel.FUERTE
       else if 70 ≤ s ∧ s ≤ 84 then ConfidenceLevel.ALTO
       else if 50 ≤ s ∧ s ≤ 69 then ConfidenceLevel.MEDIO
       else if 30 ≤ s ∧ s ≤ 49 then ConfidenceLevel.DEBIL
       else ConfidenceLevel.DEBIL) := rfl
  rw [haux]
  split_ifs with h1 h2 h3 h4 <;> refine ⟨?_, ?_, ?_, ?_⟩ <;> simp <;> omega

/-- C7: appending a closed candle to a 200-entry rolling buffer evicts
exactly the oldest entry, leaving the 199 retained entries followed by the
new one (200 in total, insertion order preserved); and the buffer length
never exceeds 200. -/
theorem c7_buffer_eviction {α : Type} (buf : List α) (k : α) (h200 : buf.length = 200) :
    process_kline_data buf k true = buf.tail ++ [k] ∧
    (process_kline_data buf k true).length = 200 ∧
    (∀ (buf2 : List α) (k2 : α) (is_closed : Bool), buf2.length ≤ 200 →
      (process_kline_data buf2 k2 is_closed).length ≤ 200) := by
  have hmain : process_kline_data buf k true = buf.tail ++ [k] := by
    unfold process_kline_data
    rw [if_neg (by simp)]
    rw [if_pos (by simp [h200])]
    cases buf with
    | nil => simp at h200
    | cons a as => rfl
  refine ⟨hmain, ?_, ?_⟩
  · rw [hmain]
    have : buf.tail.length = 199 := by
      rw [List.length_tail, h200]
    simp [this]
  · intro buf2 k2 is_closed hle
    unfold process_kline_data
    split_ifs with hclosed
    · show (if 200 < (buf2 ++ [k2]).length then (buf2 ++ [k2]).tail
        else buf2 ++ [k2]).length ≤ 200
      split_ifs with hlen
      · simp only [List.length_tail, List.length_append, List.length_singleton]
        omega
      · simp only [List.length_append, List.length_singleton] at hlen ⊢
        omega
    · exact hle

/-- C8: whenever the price series holds fewer than 50 points, or the
price or volume data is missing (or empty, hence falsy), the technical
analyzer returns a result carrying the explicit insufficient-data error
flag and a technical score of 0. The embedded function is total: no
exception escapes the component. -/
theorem c8_insufficient_data_flagged (d : TechInput) (current_rsi : ℚ) (rsi_trend : Trend3)
    (macd_line signal_line histogram : ℚ) (recent_cross : Bool) (macd_trend : Trend3)
    (current_volume average_volume : ℚ) (volume_trend : VolTrend)
    (h : (∀ ps, d.price_data = some ps → ps.length < 50) ∨
      (∀ vs, d.volume_data = some vs → vs = [])) :
    analyze_symbol_technicals d current_rsi rsi_trend macd_line signal_line histogram
      recent_cross macd_trend current_volume average_volume volume_trend =
      { technical_score := 0, insufficient_data := true } := by
  have hv : validate_technical_data d = false := by
    rcases d with ⟨pd, vd⟩
    cases pd with
    | none => cases vd <;> rfl
    | some ps =>
      cases vd with
      | none => rfl
      | some vs =>
        apply decide_eq_false
        rintro ⟨hp, hq, hr⟩
        rcases h with h | h
        · have := h ps rfl
          omega
        · have := h vs rfl
          subst this
          simp at hq
  unfold analyze_symbol_technicals
  rw [if_pos (by simp [hv])]

/-- C9: a trend window fed an unchanging momentum score N ≥ window-size
(10) times derives direction "stable" (the half-window difference is 0),
and in general, for any window of at least 2 entries, the direction is
"strengthening" exactly when the newer-half mean exceeds the older-half
mean by more than 5, "weakening" exactly when it falls short by more than
5, "stable" otherwise, with the strong/moderate sub-classification
switching at ±15. -/
theorem c9_trend_direction (entry : TrendEntry) (N : ℕ) (hN : 10 ≤ N) :
    (calculate_trend (feed_constant 10 entry N)).direction = TrendDirection.stable ∧
    (∀ history : List TrendEntry, 2 ≤ history.length →
      ((calculate_trend history).direction = TrendDirection.strengthening ↔
        5 < momentum_half_change history) ∧
      ((calculate_trend history).direction = TrendDirection.weakening ↔
        momentum_half_change history < -5) ∧
      ((calculate_trend history).direction = TrendDirection.stable ↔
        -5 ≤ momentum_half_change history ∧ momentum_half_change history ≤ 5) ∧
      ((calculate_trend history).direction = TrendDirection.strengthening →
        ((calculate_trend history).strength = TrendStrength.strong ↔
          15 < momentum_half_change history)) ∧
      ((calculate_trend history).direction = TrendDirection.weakening →
        ((calculate_trend history).strength = TrendStrength.strong ↔
          momentum_half_change history < -15))) := by
  constructor
  · rw [feed_constant_eq_replicate, min_eq_right hN]
    exact calculate_trend_replicate 10 (by norm_num) entry
  · intro history hlen
    have hred : calculate_trend history =
        { direction :=
            (if 5 < momentum_half_change history then
              (TrendDirection.strengthening,
                if 15 < momentum_half_change history then TrendStrength.strong
                else TrendStrength.moderate)
            else if momentum_half_change history < -5 then
              (TrendDirection.weakening,
                if momentum_half_change history < -15 then TrendStrength.strong
                else TrendStrength.moderate)
            else (TrendDirection.stable, TrendStrength.minimal)).1
          strength :=
            (if 5 < momentum_half_change history then
              (TrendDirection.strengthening,
                if 15 < momentum_half_change history then TrendStrength.strong
                else TrendStrength.moderate)
            else if momentum_half_change history < -5 then
              (TrendDirection.weakening,
                if momentum_half_change history < -15 then TrendStrength.strong
                else TrendStrength.moderate)
            else (TrendDirection.stable, TrendStrength.minimal)).2
          momentum_change := python_round 2 (momentum_half_change history)
          probability_change := python_round 2
            (avg_field (history.drop (history.length / 2)) (fun e => e.probability_7_5) -
              avg_field (history.take (history.length / 2)) (fun e => e.probability_7_5)) } := by
      unfold calculate_trend momentum_half_change
      rw [if_neg (by omega)]
    rw [hred]
    refine ⟨?_, ?_, ?_, ?_, ?_⟩ <;> split_ifs <;> (simp_all; try linarith)

/-- C7 witness: the eviction theorem evaluated on the concrete buffer
`List.range 200` and candle `777`. -/
theorem c7_buffer_eviction_witness :
    (List.range 200).length = 200 ∧
    process_kline_data (List.range 200) 777 true = (List.range 200).tail ++ [777] ∧
    (process_kline_data (List.range 200) 777 true).length = 200 := by
  refine ⟨by simp, ?_, ?_⟩
  · exact (c7_buffer_eviction (List.range 200) 777 (by simp)).1
  · exact (c7_buffer_eviction (List.range 200) 777 (by simp)).2.1

/-- C8 witness: a one-point price series (fewer than 50 points) yields the
flagged zero-score result. -/
theorem c8_insufficient_data_flagged_witness :
    (∀ ps, (some [(1 : ℚ)] : Option (List ℚ)) = some ps → ps.length < 50) ∧
    analyze_symbol_technicals { price_data := some [1], volume_data := some [1] } 0
      Trend3.neutral 0 0 0 false Trend3.neutral 0 0 VolTrend.neutral =
      { technical_score := 0, insufficient_data := true } := by
  have hps : ∀ ps : List ℚ, (some [(1 : ℚ)] : Option (List ℚ)) = some ps →
      ps.length < 50 := by
    intro ps h
    cases h
    decide
  exact ⟨hps, c8_insufficient_data_flagged _ 0 Trend3.neutral 0 0 0 false Trend3.neutral
    0 0 VolTrend.neutral (Or.inl hps)⟩

/-- C9 witness: feeding the constant entry (score 50) ten times into a
size-10 window yields direction "stable". -/
theorem c9_trend_direction_witness :
    10 ≤ 10 ∧
    (calculate_trend (feed_constant 10 { momentum_score := 50, probability_7_5 := 1 / 2 }
      10)).direction = TrendDirection.stable :=
  ⟨by norm_num,
    (c9_trend_direction { momentum_score := 50, probability_7_5 := 1 / 2 } 10
      (by norm_num)).1⟩

/-- C4 counterexample: the signal unified from sub-scores (12, 25, 23) —
total 60, tier MEDIO, recommendation WEAK_BUY, probability 0.7 — is
accepted by `_meets_minimum_criteria` although only one of its three
sub-scores is strictly above 50% of its maximum (12 is not > 12.5 and 25
is not > 25), so the spec's "at least 2 of 3 sub-scores above 50% of
their maximum" condition fails: the claim's "accepts only if" is false at
this input. -/
theorem c4_counterexample_boundary :
    meets_minimum_criteria (unify_signals "BTC" 0 12 25 23) = true ∧
    ¬eligibility_gate_spec (unify_signals "BTC" 0 12 25 23) := by
  have htot : (unify_signals "BTC" 0 12 25 23).total_score = 60 := by decide
  have hconf : (unify_signals "BTC" 0 12 25 23).confidence_level =
      ConfidenceLevel.MEDIO := by decide
  have hrec : (unify_signals "BTC" 0 12 25 23).recommendation =
      Recommendation.WEAK_BUY := by decide
  have hprob : (unify_signals "BTC" 0 12 25 23).target_probability = 7 / 10 := by
    show calculate_target_probability 60 12 25 23 = 7 / 10
    unfold calculate_target_probability python_round round_half_even
    norm_num [min_def, max_def]
  constructor
  · rw [meets_minimum_criteria_iff]
    refine ⟨by rw [htot]; norm_num, ?_, Or.inr (Or.inr hrec), by rw [hprob]; norm_num,
      by decide⟩
    rw [hconf]
    intro hd
    exact absurd hd (by decide)
  · rintro ⟨-, -, -, -, h5⟩
    have e1 : (unify_signals "BTC" 0 12 25 23).historical_score = 12 := rfl
    have e2 : (unify_signals "BTC" 0 12 25 23).technical_score = 25 := rfl
    have e3 : (unify_signals "BTC" 0 12 25 23).confluence_score = 23 := rfl
    rw [e1, e2, e3] at h5
    norm_num at h5

/-- C4 (amended): the eligibility gate accepts a signal exactly when
totalScore ≥ 45 (and ≥ 55 when the tier is DÉBIL/WEAK), the
recommendation is STRONG_BUY, BUY or WEAK_BUY, the target probability is
≥ 0.35, and at least 2 of the 3 sub-scores reach the code's non-strict
thresholds of 12 (historical), 25 (technical) and 12 (confluence) — not
the spec's strict "above 12.5 / 25 / 12.5". In particular every signal
with totalScore 40 (e.g. tier WEAK, probability 0.3) is rejected. -/
theorem c4_eligibility_gate (s : UnifiedSignal) :
    (meets_minimum_criteria s = true ↔
      (45 ≤ s.total_score ∧
       (s.confidence_level = ConfidenceLevel.DEBIL → 55 ≤ s.total_score) ∧
       (s.recommendation = Recommendation.STRONG_BUY ∨
         s.recommendation = Recommendation.BUY ∨
         s.recommendation = Recommendation.WEAK_BUY) ∧
       35 / 100 ≤ s.target_probability ∧
       2 ≤ ((if 12 ≤ s.historical_score then 1 else 0) +
         (if 25 ≤ s.technical_score then 1 else 0) +
         (if 12 ≤ s.confluence_score then 1 else 0) : ℕ))) ∧
    (s.total_score = 40 → meets_minimum_criteria s = false) := by
  refine ⟨meets_minimum_criteria_iff s, fun h40 => ?_⟩
  unfold meets_minimum_criteria
  rw [if_pos (by omega)]

/-- C4 witness: the amended theorem's rejection clause applied to the
pipeline signal with sub-scores (10, 20, 10), whose total score is 40. -/
theorem c4_eligibility_gate_witness :
    (unify_signals "ETH" 0 10 20 10).total_score = 40 ∧
    meets_minimum_criteria (unify_signals "ETH" 0 10 20 10) = false :=
  ⟨by decide, (c4_eligibility_gate (unify_signals "ETH" 0 10 20 10)).2 (by decide)⟩

/-- C6: if a FinalSignal for a symbol was emitted within the last 2 hours
(exactly one such entry sits in the generator history), then every later
candidate for that symbol is a duplicate and is rejected, no later
generation call emits another signal for it, and the emitted count for the
symbol within the 2-hour window remains exactly one. -/
theorem c6_two_hour_deduplication (st : GenState) (now : ℕ)
    (unified : List UnifiedSignal) (sym : String)
    (h1 : recent_same_symbol_count st.generated_signals now sym = 1) :
    (∀ s : UnifiedSignal, s.symbol = some sym →
      is_duplicate_signal (reset_daily_count_if_needed st now).generated_signals now s =
        true) ∧
    (∀ t ∈ (generate_final_signals st now unified).1, t.symbol ≠ some sym) ∧
    recent_same_symbol_count
      ((generate_final_signals st now unified).2).generated_signals now sym = 1 := by
  have hlen : 0 < (st.generated_signals.filter fun p =>
      decide (p.symbol = some sym) && decide ((now : ℤ) - 120 < (p.timestamp : ℤ))).length := by
    unfold recent_same_symbol_count at h1
    omega
  obtain ⟨p, hp⟩ := List.exists_mem_of_length_pos hlen
  have hp2 := List.mem_filter.mp hp
  have hpmem : p ∈ st.generated_signals := hp2.1
  have hpsym : p.symbol = some sym := by
    have := hp2.2
    simp only [Bool.and_eq_true, decide_eq_true_eq] at this
    exact this.1
  have hptime : (now : ℤ) - 120 < (p.timestamp : ℤ) := by
    have := hp2.2
    simp only [Bool.and_eq_true, decide_eq_true_eq] at this
    exact this.2
  have hdup : ∀ s : UnifiedSignal, s.symbol = some sym →
      is_duplicate_signal (reset_daily_count_if_needed st now).generated_signals now s =
        true := by
    intro s hs
    unfold is_duplicate_signal
    rw [hs]
    rw [List.any_eq_true]
    refine ⟨p, reset_preserves_recent st now p hpmem hptime, ?_⟩
    simp only [Bool.and_eq_true, decide_eq_true_eq]
    exact ⟨hpsym, hptime⟩
  have hout : ∀ t ∈ (generate_final_signals st now unified).1, t.symbol ≠ some sym := by
    intro t ht hsymt
    rcases generate_mem st now unified t ht with ⟨s, hsc, rfl⟩
    have hnd := candidate_not_duplicate hsc
    have hss : s.symbol = some sym := hsymt
    rw [hdup s hss] at hnd
    cases hnd
  refine ⟨hdup, hout, ?_⟩
  rw [generate_final_signals_gen, recent_count_append, recent_count_reset, h1]
  have hz : recent_same_symbol_count (generate_final_signals st now unified).1 now sym =
      0 := by
    unfold recent_same_symbol_count
    rw [List.length_eq_zero]
    rw [List.filter_eq_nil_iff]
    intro t ht
    simp only [Bool.and_eq_true, decide_eq_true_eq, not_and]
    intro hts
    exact absurd hts (hout t ht)
  rw [hz]

/-- C6 witness: a history holding exactly one signal for `"BTCUSDT"`
emitted 30 minutes ago; a later call emits nothing for that symbol and the
2-hour count stays one. -/
theorem c6_two_hour_deduplication_witness :
    recent_same_symbol_count
      [{ symbol := some "BTCUSDT", timestamp := 0,
         confidence_level := ConfidenceLevel.FUERTE, total_score := 90 }] 30 "BTCUSDT" = 1 ∧
    (∀ t ∈ (generate_final_signals
        { generated_signals :=
            [{ symbol := some "BTCUSDT", timestamp := 0,
               confidence_level := ConfidenceLevel.FUERTE, total_score := 90 }]
          daily_signal_count := 1
          last_reset_date := 0 } 30 []).1, t.symbol ≠ some "BTCUSDT") := by
  have h1 : recent_same_symbol_count
      [{ symbol := some "BTCUSDT", timestamp := 0,
         confidence_level := ConfidenceLevel.FUERTE, total_score := 90 }] 30 "BTCUSDT" =
      1 := by decide
  exact ⟨h1, (c6_two_hour_deduplication
    { generated_signals :=
        [{ symbol := some "BTCUSDT", timestamp := 0,
           confidence_level := ConfidenceLevel.FUERTE, total_score := 90 }]
      daily_signal_count := 1
      last_reset_date := 0 } 30 [] "BTCUSDT" h1).2.1⟩

/-- C10: a unified signal whose symbol is missing (falsy) is classified a
duplicate by `_is_duplicate_signal`, and consequently every signal the
generator ever emits carries a present symbol — a symbol-less signal can
never become an emitted FinalSignal. -/
theorem c10_missing_symbol_rejected :
    (∀ (generated : List TradingSignal) (now : ℕ) (s : UnifiedSignal), s.symbol = none →
      is_duplicate_signal generated now s = true) ∧
    (∀ (st : GenState) (now : ℕ) (unified : List UnifiedSignal),
      ((generate_final_signals st now unified).1.all fun t => t.symbol.isSome) = true) := by
  have hdup : ∀ (generated : List TradingSignal) (now : ℕ) (s : UnifiedSignal),
      s.symbol = none → is_duplicate_signal generated now s = true := by
    intro generated now s h
    unfold is_duplicate_signal
    rw [h]
  refine ⟨hdup, ?_⟩
  intro st now unified
  rw [List.all_eq_true]
  intro t ht
  rcases generate_mem st now unified t ht with ⟨s, hs, rfl⟩
  have hnd := candidate_not_duplicate hs
  cases hsym : s.symbol with
  | none =>
    rw [hdup _ now s hsym] at hnd
    cases hnd
  | some v =>
    simp [format_trading_signal, hsym]

/-- C10 witness: the duplicate classifier applied to a concrete signal
with no symbol. -/
theorem c10_missing_symbol_rejected_witness :
    is_duplicate_signal [] 0
      { symbol := none, timestamp := 0, total_score := 0,
        confidence_level := ConfidenceLevel.DEBIL, signal_strength := SignalStrength.WEAK,
        recommendation := Recommendation.HOLD, target_probability := 0,
        historical_score := 0, technical_score := 0, confluence_score := 0 } = true :=
  c10_missing_symbol_rejected.1 [] 0
    { symbol := none, timestamp := 0, total_score := 0,
      confidence_level := ConfidenceLevel.DEBIL, signal_strength := SignalStrength.WEAK,
      recommendation := Recommendation.HOLD, target_probability := 0,
      historical_score := 0, technical_score := 0, confluence_score := 0 } rfl

/-- C5 counterexample: within one calendar day (day 0), a first cycle
accepts 3 signals (filling the quota) and each of two further cycles
accepts 2 more FUERTE signals for fresh symbols, because the STRONG
overflow allowance is applied per generation call, not per day: the
daily count reaches 7 > quota + 2 = 5. -/
theorem c5_counterexample_quota_exceeded :
    c5_state3.daily_signal_count = 7 ∧ TARGET_DAILY_SIGNALS + 2 < 7 ∧
    date_of 0 = 0 ∧ date_of 30 = 0 ∧ date_of 60 = 0 := by
  have hfil1 : filter_candidate_signals
      { generated_signals := [], daily_signal_count := 0, last_reset_date := 0 } 0
      [sig_alto "AAA", sig_alto "BBB", sig_alto "CCC"] =
      [sig_alto "AAA", sig_alto "BBB", sig_alto "CCC"] := by
    apply filter_eq_self_of
    intro s hs
    have hnil : ∀ p ∈ ([] : List TradingSignal), p.symbol ≠ some "X" →
        True := fun _ _ _ => trivial
    rcases (by simpa using hs : s = sig_alto "AAA" ∨ s = sig_alto "BBB" ∨
        s = sig_alto "CCC") with rfl | rfl | rfl
    · exact ⟨sig_alto_meets _, is_duplicate_eq_false [] 0 _ "AAA" rfl
        (fun p hp => absurd hp (List.not_mem_nil p)), Or.inl (by decide)⟩
    · exact ⟨sig_alto_meets _, is_duplicate_eq_false [] 0 _ "BBB" rfl
        (fun p hp => absurd hp (List.not_mem_nil p)), Or.inl (by decide)⟩
    · exact ⟨sig_alto_meets _, is_duplicate_eq_false [] 0 _ "CCC" rfl
        (fun p hp => absurd hp (List.not_mem_nil p)), Or.inl (by decide)⟩
  have hfill := generate_fill_cycle
    { generated_signals := [], daily_signal_count := 0, last_reset_date := 0 } 0
    [sig_alto "AAA", sig_alto "BBB", sig_alto "CCC"] rfl rfl hfil1
    (by
      intro s hs
      rcases (by simpa using hs : s = sig_alto "AAA" ∨ s = sig_alto "BBB" ∨
          s = sig_alto "CCC") with rfl | rfl | rfl <;> rfl)
    (by decide) (by decide)
  have h1count : c5_state1.daily_signal_count = 3 := by
    unfold c5_state1
    rw [hfill.2.1]
    rfl
  have h1last : c5_state1.last_reset_date = 0 := by
    unfold c5_state1
    rw [hfill.2.2.1]
  have h1gen : ∀ p ∈ c5_state1.generated_signals,
      p.symbol = some "AAA" ∨ p.symbol = some "BBB" ∨ p.symbol = some "CCC" := by
    intro p hp
    unfold c5_state1 at hp
    rcases hfill.2.2.2 p hp with h | ⟨s, hsb, he⟩
    · exact absurd h (List.not_mem_nil p)
    · rcases (by simpa using hsb : s = sig_alto "AAA" ∨ s = sig_alto "BBB" ∨
          s = sig_alto "CCC") with rfl | rfl | rfl
      · exact Or.inl he
      · exact Or.inr (Or.inl he)
      · exact Or.inr (Or.inr he)
  have hfil2 : filter_candidate_signals c5_state1 30
      [sig_fuerte "DDD", sig_fuerte "EEE"] = [sig_fuerte "DDD", sig_fuerte "EEE"] := by
    apply filter_eq_self_of
    intro s hs
    rcases (by simpa using hs : s = sig_fuerte "DDD" ∨ s = sig_fuerte "EEE") with rfl | rfl
    · refine ⟨sig_fuerte_meets _, is_duplicate_eq_false _ 30 _ "DDD" rfl ?_, Or.inr rfl⟩
      intro p hp
      rcases h1gen p hp with h | h | h <;> simp [h]
    · refine ⟨sig_fuerte_meets _, is_duplicate_eq_false _ 30 _ "EEE" rfl ?_, Or.inr rfl⟩
      intro p hp
      rcases h1gen p hp with h | h | h <;> simp [h]
  have hov2 := generate_overflow_cycle c5_state1 30 [sig_fuerte "DDD", sig_fuerte "EEE"]
    (by rw [h1last]; rfl) (by rw [h1count]; decide) hfil2
    (by
      intro s hs
      rcases (by simpa using hs : s = sig_fuerte "DDD" ∨ s = sig_fuerte "EEE") with
        rfl | rfl <;> rfl)
    (by decide)
  have h2count : c5_state2.daily_signal_count = 5 := by
    unfold c5_state2
    rw [hov2.2.1, h1count]
    rfl
  have h2last : c5_state2.last_reset_date = 0 := by
    unfold c5_state2
    rw [hov2.2.2.1, h1last]
  have h2gen : ∀ p ∈ c5_state2.generated_signals,
      p.symbol = some "AAA" ∨ p.symbol = some "BBB" ∨ p.symbol = some "CCC" ∨
        p.symbol = some "DDD" ∨ p.symbol = some "EEE" := by
    intro p hp
    unfold c5_state2 at hp
    rcases hov2.2.2.2 p hp with h | ⟨s, hsb, he⟩
    · rcases h1gen p h with h | h | h
      · exact Or.inl h
      · exact Or.inr (Or.inl h)
      · exact Or.inr (Or.inr (Or.inl h))
    · rcases (by simpa using hsb : s = sig_fuerte "DDD" ∨ s = sig_fuerte "EEE") with
        rfl | rfl
      · exact Or.inr (Or.inr (Or.inr (Or.inl he)))
      · exact Or.inr (Or.inr (Or.inr (Or.inr he)))
  have hfil3 : filter_candidate_signals c5_state2 60
      [sig_fuerte "FFF", sig_fuerte "GGG"] = [sig_fuerte "FFF", sig_fuerte "GGG"] := by
    apply filter_eq_self_of
    intro s hs
    rcases (by simpa using hs : s = sig_fuerte "FFF" ∨ s = sig_fuerte "GGG") with rfl | rfl
    · refine ⟨sig_fuerte_meets _, is_duplicate_eq_false _ 60 _ "FFF" rfl ?_, Or.inr rfl⟩
      intro p hp
      rcases h2gen p hp with h | h | h | h | h <;> simp [h]
    · refine ⟨sig_fuerte_meets _, is_duplicate_eq_false _ 60 _ "GGG" rfl ?_, Or.inr rfl⟩
      intro p hp
      rcases h2gen p hp with h | h | h | h | h <;> simp [h]
  have hov3 := generate_overflow_cycle c5_state2 60 [sig_fuerte "FFF", sig_fuerte "GGG"]
    (by rw [h2last]; rfl) (by rw [h2count]; decide) hfil3
    (by
      intro s hs
      rcases (by simpa using hs : s = sig_fuerte "FFF" ∨ s = sig_fuerte "GGG") with
        rfl | rfl <;> rfl)
    (by decide)
  refine ⟨?_, by decide, rfl, rfl, rfl⟩
  unfold c5_state3
  rw [hov3.2.1, h2count]
  rfl

/-- C5 (amended): the overflow allowance is per generation cycle, not per
day. Within a day (no date change): while the daily count is below the
quota (3), a cycle accepts at most the remaining quota, keeping the count
≤ 3; once the count has reached the quota, a cycle accepts at most 2 more
signals, all of FUERTE tier, adding to the running count — so the daily
total can exceed quota + 2 across several cycles. On a date change the
count restarts and the cycle again yields at most the quota. -/
theorem c5_daily_quota (st : GenState) (now : ℕ) (unified : List UnifiedSignal) :
    (st.daily_signal_count < TARGET_DAILY_SIGNALS ∧ date_of now = st.last_reset_date →
      ((generate_final_signals st now unified).2).daily_signal_count ≤
        TARGET_DAILY_SIGNALS) ∧
    (TARGET_DAILY_SIGNALS ≤ st.daily_signal_count ∧ date_of now = st.last_reset_date →
      (generate_final_signals st now unified).1.length ≤ 2 ∧
      ((generate_final_signals st now unified).2).daily_signal_count ≤
        st.daily_signal_count + 2 ∧
      (∀ t ∈ (generate_final_signals st now unified).1,
        t.confidence_level = ConfidenceLevel.FUERTE)) ∧
    (date_of now ≠ st.last_reset_date →
      ((generate_final_signals st now unified).2).daily_signal_count ≤
        TARGET_DAILY_SIGNALS) := by
  refine ⟨?_, ?_, ?_⟩
  · rintro ⟨hc, hd⟩
    have hreset := reset_id_of_same_date st now hd
    rw [generate_final_signals_count, hreset]
    have hlen := select_final_signals_length st
      (prioritize_signals (filter_candidate_signals st now unified)) hc
    have hout : (generate_final_signals st now unified).1.length =
        (select_final_signals st
          (prioritize_signals (filter_candidate_signals st now unified))).length := by
      rw [generate_final_signals_out, hreset, List.length_map]
    omega
  · rintro ⟨hc, hd⟩
    have hreset := reset_id_of_same_date st now hd
    have hov := select_final_signals_overflow st
      (prioritize_signals (filter_candidate_signals st now unified)) hc
    have hout2 : (generate_final_signals st now unified).1.length ≤ 2 := by
      rw [generate_final_signals_out, hreset, List.length_map, hov]
      exact List.length_take_le 2 _
    refine ⟨hout2, ?_, ?_⟩
    · rw [generate_final_signals_count, hreset]
      omega
    · intro t ht
      rw [generate_final_signals_out, hreset] at ht
      rcases List.mem_map.mp ht with ⟨s, hs, rfl⟩
      rw [hov] at hs
      have hmem := List.mem_of_mem_take hs
      have := (List.mem_filter.mp hmem).2
      simp only [decide_eq_true_eq] at this
      exact this
  · intro hd
    have hz : (reset_daily_count_if_needed st now).daily_signal_count = 0 := by
      unfold reset_daily_count_if_needed
      rw [if_pos hd]
    rw [generate_final_signals_count, hz]
    have hlen := select_final_signals_length (reset_daily_count_if_needed st now)
      (prioritize_signals
        (filter_candidate_signals (reset_daily_count_if_needed st now) now unified))
      (by rw [hz]; decide)
    have hout : (generate_final_signals st now unified).1.length =
        (select_final_signals (reset_daily_count_if_needed st now)
          (prioritize_signals
            (filter_candidate_signals (reset_daily_count_if_needed st now) now
              unified))).length := by
      rw [generate_final_signals_out, List.length_map]
    omega

/-- C5 witness: the amended theorem's overflow clause applied to a state
whose daily count already equals the quota, fed no signals. -/
theorem c5_daily_quota_witness :
    (TARGET_DAILY_SIGNALS ≤
      (({ generated_signals := [], daily_signal_count := 3, last_reset_date := 0 } :
        GenState)).daily_signal_count ∧ date_of 0 = 0) ∧
    ((generate_final_signals
        { generated_signals := [], daily_signal_count := 3, last_reset_date := 0 } 0
        []).1.length ≤ 2 ∧
      ((generate_final_signals
        { generated_signals := [], daily_signal_count := 3, last_reset_date := 0 } 0
        []).2).daily_signal_count ≤ 3 + 2 ∧
      (∀ t ∈ (generate_final_signals
          { generated_signals := [], daily_signal_count := 3, last_reset_date := 0 } 0
          []).1, t.confidence_level = ConfidenceLevel.FUERTE)) :=
  ⟨⟨by decide, rfl⟩,
    (c5_daily_quota
      { generated_signals := [], daily_signal_count := 3, last_reset_date := 0 } 0
      []).2.1 ⟨by decide, rfl⟩⟩

end NvBot
